import Mathlib

/-!
Shallow embedding of the movement-demo platformer core
(`src/character_profiles.py` and `src/player.py`) and proofs about the
per-tick simulation pipeline.

Conventions:
* Python floats are modelled as exact rationals (`ℚ`); all profile constants
  in the repository are decimal literals, so every computation of interest is
  exact.
* Python ints (timers, frame counts, directions) are modelled as `Int`.
* `pygame.Rect` coordinates are modelled as rationals; pygame's integer
  truncation of rect coordinates is not modelled (no property below depends
  on pixel rounding).
* Fallible code is modelled with `Except String`: the only fallible operation
  in the core is the float division in the speed-ratio jump bonus, which in
  Python raises `ZeroDivisionError` when the divisor is zero.
-/

deriving instance DecidableEq for Except

namespace MovementDemo

/-- An axis-aligned rectangle, after `pygame.Rect` (top-left anchor). -/
structure Rect where
  x : ℚ
  y : ℚ
  w : ℚ
  h : ℚ
deriving Repr, DecidableEq

def Rect.left (r : Rect) : ℚ := r.x
def Rect.right (r : Rect) : ℚ := r.x + r.w
def Rect.top (r : Rect) : ℚ := r.y
def Rect.bottom (r : Rect) : ℚ := r.y + r.h
def Rect.centerx (r : Rect) : ℚ := r.x + r.w / 2

/-- `pygame.Rect.colliderect`: overlap test; shared edges do not collide. -/
def Rect.colliderect (a b : Rect) : Prop :=
  a.left < b.right ∧ a.right > b.left ∧ a.top < b.bottom ∧ a.bottom > b.top

instance (a b : Rect) : Decidable (a.colliderect b) := by
  unfold Rect.colliderect; infer_instance

/-- `pygame.Rect.inflate(dx, dy)`: grow around the center. -/
def Rect.inflate (r : Rect) (dx dy : ℚ) : Rect :=
  { x := r.x - dx / 2, y := r.y - dy / 2, w := r.w + dx, h := r.h + dy }

/-- `Rect` with its right edge moved to `v` (`rect.right = v`). -/
def Rect.setRight (r : Rect) (v : ℚ) : Rect := { r with x := v - r.w }

/-- `Rect` with its left edge moved to `v` (`rect.left = v`). -/
def Rect.setLeft (r : Rect) (v : ℚ) : Rect := { r with x := v }

/-- `Rect` with its bottom edge moved to `v` (`rect.bottom = v`). -/
def Rect.setBottom (r : Rect) (v : ℚ) : Rect := { r with y := v - r.h }

/-- `Rect` with its top edge moved to `v` (`rect.top = v`). -/
def Rect.setTop (r : Rect) (v : ℚ) : Rect := { r with y := v }

/-- The field part of the `CharacterProfile` dataclass
(`src/character_profiles.py`, lines 20-100). -/
structure CharacterProfile where
  name : String := ""
  walk_speed : ℚ := 0
  run_speed : ℚ := 0
  acceleration : ℚ := 0
  deceleration : ℚ := 0
  skid_deceleration : ℚ := 0
  has_momentum : Bool := true
  jump_force : ℚ := 0
  jump_force_run_bonus : ℚ := 0
  variable_jump : Bool := false
  has_double_jump : Bool := false
  has_dash : Bool := false
  dash_speed : ℚ := 0
  dash_duration : Int := 0
  gravity : ℚ := 0
  falling_gravity : ℚ := 0
  max_fall_speed : ℚ := 0
  air_acceleration_multiplier : ℚ := 1
  no_horizontal_drag : Bool := false
  run_buffer_frames : Int := 0
  coyote_time : Int := 0
  jump_buffer : Int := 0
  color : Nat × Nat × Nat := (255, 255, 255)
  description : String := ""
  has_wall_slide : Bool := false
  wall_slide_speed : ℚ := 2
  has_wall_jump : Bool := false
  wall_jump_style : String := "celeste"
  wall_stick_time : Int := 0
deriving Repr, DecidableEq

/-- The `_defaults` snapshot stored by `CharacterProfile.__post_init__`:
exactly five physics fields. -/
structure PhysicsDefaults where
  gravity : ℚ
  falling_gravity : ℚ
  walk_speed : ℚ
  acceleration : ℚ
  jump_force : ℚ
deriving Repr, DecidableEq

/-- A live `CharacterProfile` object: its mutable fields plus the
construction-time `_defaults` snapshot. -/
structure ProfileState where
  fields : CharacterProfile
  defaults : PhysicsDefaults
deriving Repr, DecidableEq

/-- Dataclass construction followed by `__post_init__`: snapshot the five
physics fields into `_defaults`.  (`_validate` only prints warnings and
mutates nothing; it is modelled separately by `validateWarnings`.) -/
def mkProfile (c : CharacterProfile) : ProfileState :=
  { fields := c,
    defaults := { gravity := c.gravity, falling_gravity := c.falling_gravity,
                  walk_speed := c.walk_speed, acceleration := c.acceleration,
                  jump_force := c.jump_force } }

/-- `CharacterProfile.reset_physics`: write each `_defaults` entry back onto
the corresponding field.  Nothing else is touched. -/
def ProfileState.reset_physics (s : ProfileState) : ProfileState :=
  { s with fields :=
    { s.fields with
      gravity := s.defaults.gravity,
      falling_gravity := s.defaults.falling_gravity,
      walk_speed := s.defaults.walk_speed,
      acceleration := s.defaults.acceleration,
      jump_force := s.defaults.jump_force } }

/-- `CharacterProfile._validate`: collect diagnostic warnings (the Python
code prints them); the profile is never rejected or mutated. -/
def validateWarnings (c : CharacterProfile) : List String :=
  (if c.gravity ≤ 0 then ["gravity should be > 0"] else []) ++
  (if c.jump_force ≤ 0 then ["jump_force should be > 0"] else []) ++
  (if c.walk_speed < 0 then ["walk_speed should be >= 0"] else []) ++
  (if c.acceleration ≤ 0 then ["acceleration should be > 0"] else []) ++
  (if c.wall_jump_style = "celeste" ∨ c.wall_jump_style = "smb" ∨
      c.wall_jump_style = "npp" then []
   else ["wall_jump_style should be celeste/smb/npp"])

/-- One in-place `setattr` on a live profile, as performed by the tuning
surfaces (`ui.py` sliders, `llm_physics.py` application, direct edits).
One constructor per dataclass field. -/
inductive ProfileEdit where
  | set_name (v : String)
  | set_walk_speed (v : ℚ)
  | set_run_speed (v : ℚ)
  | set_acceleration (v : ℚ)
  | set_deceleration (v : ℚ)
  | set_skid_deceleration (v : ℚ)
  | set_has_momentum (v : Bool)
  | set_jump_force (v : ℚ)
  | set_jump_force_run_bonus (v : ℚ)
  | set_variable_jump (v : Bool)
  | set_has_double_jump (v : Bool)
  | set_has_dash (v : Bool)
  | set_dash_speed (v : ℚ)
  | set_dash_duration (v : Int)
  | set_gravity (v : ℚ)
  | set_falling_gravity (v : ℚ)
  | set_max_fall_speed (v : ℚ)
  | set_air_acceleration_multiplier (v : ℚ)
  | set_no_horizontal_drag (v : Bool)
  | set_run_buffer_frames (v : Int)
  | set_coyote_time (v : Int)
  | set_jump_buffer (v : Int)
  | set_color (v : Nat × Nat × Nat)
  | set_description (v : String)
  | set_has_wall_slide (v : Bool)
  | set_wall_slide_speed (v : ℚ)
  | set_has_wall_jump (v : Bool)
  | set_wall_jump_style (v : String)
  | set_wall_stick_time (v : Int)
deriving Repr, DecidableEq

/-- Apply one `setattr` edit.  `setattr` writes a field; the `_defaults`
snapshot is untouched. -/
def applyEdit (s : ProfileState) (e : ProfileEdit) : ProfileState :=
  { s with fields :=
    match e with
    | .set_name v => { s.fields with name := v }
    | .set_walk_speed v => { s.fields with walk_speed := v }
    | .set_run_speed v => { s.fields with run_speed := v }
    | .set_acceleration v => { s.fields with acceleration := v }
    | .set_deceleration v => { s.fields with deceleration := v }
    | .set_skid_deceleration v => { s.fields with skid_deceleration := v }
    | .set_has_momentum v => { s.fields with has_momentum := v }
    | .set_jump_force v => { s.fields with jump_force := v }
    | .set_jump_force_run_bonus v => { s.fields with jump_force_run_bonus := v }
    | .set_variable_jump v => { s.fields with variable_jump := v }
    | .set_has_double_jump v => { s.fields with has_double_jump := v }
    | .set_has_dash v => { s.fields with has_dash := v }
    | .set_dash_speed v => { s.fields with dash_speed := v }
    | .set_dash_duration v => { s.fields with dash_duration := v }
    | .set_gravity v => { s.fields with gravity := v }
    | .set_falling_gravity v => { s.fields with falling_gravity := v }
    | .set_max_fall_speed v => { s.fields with max_fall_speed := v }
    | .set_air_acceleration_multiplier v =>
        { s.fields with air_acceleration_multiplier := v }
    | .set_no_horizontal_drag v => { s.fields with no_horizontal_drag := v }
    | .set_run_buffer_frames v => { s.fields with run_buffer_frames := v }
    | .set_coyote_time v => { s.fields with coyote_time := v }
    | .set_jump_buffer v => { s.fields with jump_buffer := v }
    | .set_color v => { s.fields with color := v }
    | .set_description v => { s.fields with description := v }
    | .set_has_wall_slide v => { s.fields with has_wall_slide := v }
    | .set_wall_slide_speed v => { s.fields with wall_slide_speed := v }
    | .set_has_wall_jump v => { s.fields with has_wall_jump := v }
    | .set_wall_jump_style v => { s.fields with wall_jump_style := v }
    | .set_wall_stick_time v => { s.fields with wall_stick_time := v } }

/-- A finite sequence of in-place edits, applied left to right. -/
def applyEdits (s : ProfileState) (es : List ProfileEdit) : ProfileState :=
  es.foldl applyEdit s

/-- A 2D vector, after `pygame.math.Vector2`. -/
structure Vec2 where
  x : ℚ
  y : ℚ
deriving Repr, DecidableEq

/-- The logical input intents for one tick, the abstraction of the raw
keyboard/controller reads in `Player.get_input` (each flag is the OR of the
keyboard keys and the controller condition that feed it). -/
structure InputState where
  left : Bool
  right : Bool
  run : Bool
  jump : Bool
  dash : Bool
deriving Repr, DecidableEq

/-- The level as seen by the player: solid platforms and hazards, each a set
of axis-aligned rectangles. -/
structure Level where
  platforms : List Rect
  hazards : List Rect
deriving Repr, DecidableEq

/-- The mutable state of `Player` (`src/player.py`, `__init__`), minus
purely visual fields (`image`, `anim_offset`, `is_jumping`, which no physics
code reads). -/
structure Player where
  profile : CharacterProfile
  original_pos : ℚ × ℚ
  rect : Rect
  velocity : Vec2
  on_ground : Bool
  is_skidding : Bool
  facing_right : Bool
  on_wall : Bool
  wall_direction : Int
  wall_stick_timer : Int
  run_button_held : Bool
  run_buffer_timer : Int
  dash_active : Bool
  dash_timer : Int
  dash_direction : Int
  has_double_jumped : Bool
  jump_button_was_pressed : Bool
  air_timer : Int
  jump_buffer_timer : Int
  last_input_direction : Int
deriving Repr, DecidableEq

/-- `Player.__init__` (lines 7-45): the initial kinematic state at `pos`
with the given profile (the level is passed separately to each tick here).
`last_input_direction` is first assigned in `get_input`, which always runs
before `jump`; its pre-first-tick `getattr` default is `0`. -/
def mkPlayer (pos : ℚ × ℚ) (profile : CharacterProfile) : Player :=
  { profile := profile,
    original_pos := pos,
    rect := { x := pos.1, y := pos.2, w := 30, h := 60 },
    velocity := { x := 0, y := 0 },
    on_ground := false, is_skidding := false, facing_right := true,
    on_wall := false, wall_direction := 0, wall_stick_timer := 0,
    run_button_held := false, run_buffer_timer := 0,
    dash_active := false, dash_timer := 0, dash_direction := 0,
    has_double_jumped := false, jump_button_was_pressed := false,
    air_timer := 0, jump_buffer_timer := 0, last_input_direction := 0 }

/-- Modelled from the spec: `settings.py` (screen dimensions) is not under
`src/`; the spec only requires a "fell below world bottom" threshold.  The
value is a typical screen height; no property below depends on it beyond it
being positive. -/
def SCREEN_HEIGHT : ℚ := 800

/-- `Player.get_input`, dash-activation part (lines 73-83): on a dash press
with `has_dash` and no dash active, arm the dash. -/
def dashInputStage (p : Player) (inp : InputState) : Player :=
  if p.profile.has_dash ∧ ¬p.dash_active ∧ inp.dash then
    { p with dash_active := true,
             dash_timer := p.profile.dash_duration,
             dash_direction := if p.facing_right then 1 else -1 }
  else p

/-- `Player.get_input`, dash-override part (lines 86-96): force horizontal
velocity, tick the dash timer down, deactivate on expiry, and return
(skipping the rest of `get_input`). -/
def dashOverrideStage (p : Player) : Player :=
  let p := { p with
    velocity := { x := (p.dash_direction : ℚ) * p.profile.dash_speed,
                  y := p.velocity.y },
    dash_timer := p.dash_timer - 1 }
  if p.dash_timer ≤ 0 then { p with dash_active := false } else p

/-- The raw movement direction from the directional inputs
(`get_input` lines 116-118): left sets `-1`, then right overrides to `1`. -/
def moveDirRaw (inp : InputState) : Int :=
  if inp.right then 1 else if inp.left then -1 else 0

/-- The run-buffer value after the run-button update (`get_input`
lines 99-105): held re-arms to `run_buffer_frames`, otherwise the timer
decrements saturating at zero. -/
def runBufferAfter (p : Player) (inp : InputState) : Int :=
  if inp.run then p.profile.run_buffer_frames
  else max 0 (p.run_buffer_timer - 1)

/-- `is_running` (`get_input` line 108): run held or run buffer live. -/
def isRunningAfter (p : Player) (inp : InputState) : Prop :=
  inp.run ∨ runBufferAfter p inp > 0

instance (p : Player) (inp : InputState) :
    Decidable (isRunningAfter p inp) := by
  unfold isRunningAfter; infer_instance

/-- Wall stickiness (`get_input` lines 123-134): the pair of the effective
movement direction (input away from a wall is cancelled while the stick
timer runs) and the updated wall-stick timer. -/
def wallStickPair (p : Player) (inp : InputState) : Int × Int :=
  if p.on_wall ∧ ¬p.on_ground then
    if moveDirRaw inp ≠ 0 ∧ moveDirRaw inp ≠ p.wall_direction then
      if p.wall_stick_timer > 0 then (0, p.wall_stick_timer - 1)
      else (moveDirRaw inp, p.wall_stick_timer)
    else (moveDirRaw inp, p.profile.wall_stick_time)
  else (moveDirRaw inp, p.wall_stick_timer)

/-- The effective movement direction after wall stickiness. -/
def effMoveDir (p : Player) (inp : InputState) : Int :=
  (wallStickPair p inp).1

/-- The wall-stick timer after the stickiness update. -/
def stickTimerAfter (p : Player) (inp : InputState) : Int :=
  (wallStickPair p inp).2

/-- `target_speed` (`get_input` lines 111, 136-142): signed run or walk
speed from the effective direction, zero on neutral. -/
def targetSpeedOf (p : Player) (inp : InputState) : ℚ :=
  if effMoveDir p inp = -1 then
    if isRunningAfter p inp then -p.profile.run_speed
    else -p.profile.walk_speed
  else if effMoveDir p inp = 1 then
    if isRunningAfter p inp then p.profile.run_speed
    else p.profile.walk_speed
  else 0

/-- `facing_right` after `get_input` (lines 139, 142). -/
def facingAfter (p : Player) (inp : InputState) : Bool :=
  if effMoveDir p inp = -1 then false
  else if effMoveDir p inp = 1 then true
  else p.facing_right

/-- Skid classification (`get_input` lines 144-148). -/
def isSkiddingAfter (p : Player) (inp : InputState) : Bool :=
  decide (p.profile.has_momentum ∧ p.on_ground ∧
    ((targetSpeedOf p inp > 0 ∧ p.velocity.x < -0.5) ∨
     (targetSpeedOf p inp < 0 ∧ p.velocity.x > 0.5)))

/-- Horizontal velocity after the acceleration/deceleration logic of
`get_input` (lines 150-187): snap for non-momentum profiles, otherwise
approach the target by the (air-scaled, skid-aware) acceleration; on
neutral input, ground deceleration or the fixed `0.2` air drag. -/
def velocityXAfter (p : Player) (inp : InputState) : ℚ :=
  if targetSpeedOf p inp ≠ 0 then
    if ¬p.profile.has_momentum then targetSpeedOf p inp
    else
      let accel0 :=
        if ¬p.on_ground then
          p.profile.acceleration * p.profile.air_acceleration_multiplier
        else p.profile.acceleration
      let accel :=
        if isSkiddingAfter p inp then p.profile.skid_deceleration else accel0
      if p.velocity.x < targetSpeedOf p inp then
        min (p.velocity.x + accel) (targetSpeedOf p inp)
      else max (p.velocity.x - accel) (targetSpeedOf p inp)
  else
    if p.on_ground then
      if ¬p.profile.has_momentum then 0
      else if p.velocity.x > 0 then
        max (p.velocity.x - p.profile.deceleration) 0
      else if p.velocity.x < 0 then
        min (p.velocity.x + p.profile.deceleration) 0
      else p.velocity.x
    else
      if ¬p.profile.no_horizontal_drag then
        if p.velocity.x > 0 then max (p.velocity.x - 0.2) 0
        else if p.velocity.x < 0 then min (p.velocity.x + 0.2) 0
        else p.velocity.x
      else p.velocity.x

/-- The jump buffer after the edge detection of `get_input`
(lines 189-197): a press edge re-arms it to `jump_buffer`, otherwise it
decrements saturating at zero. -/
def jumpBufferAfter (p : Player) (inp : InputState) : Int :=
  if inp.jump ∧ ¬p.jump_button_was_pressed then p.profile.jump_buffer
  else max 0 (p.jump_buffer_timer - 1)

/-- The non-dash path of `Player.get_input` (lines 98-200): run buffer,
movement direction and wall stickiness, horizontal velocity, and the jump
buffer edge detection, assembled from the named pieces above (the Python
code reads each field before overwriting it, so these sequential mutations
equal one simultaneous record update). -/
def getInputNormal (p : Player) (inp : InputState) : Player :=
  { p with
    run_button_held := inp.run,
    run_buffer_timer := runBufferAfter p inp,
    last_input_direction := moveDirRaw inp,
    wall_stick_timer := stickTimerAfter p inp,
    facing_right := facingAfter p inp,
    is_skidding := isSkiddingAfter p inp,
    velocity := { x := velocityXAfter p inp, y := p.velocity.y },
    jump_buffer_timer := jumpBufferAfter p inp,
    jump_button_was_pressed := inp.jump }

/-- `Player.get_input` (lines 60-200): the dash-activation stage, then
either the dash override (early return) or the normal movement/jump-buffer
path. -/
def get_input (p : Player) (inp : InputState) : Player :=
  if (dashInputStage p inp).dash_active then
    dashOverrideStage (dashInputStage p inp)
  else getInputNormal (dashInputStage p inp) inp

/-- `Player.apply_gravity` (lines 202-223): wall-slide clamp, else variable
gravity clamped to terminal velocity. -/
def apply_gravity (p : Player) : Player :=
  if p.on_wall ∧ p.profile.has_wall_slide ∧ p.velocity.y > 0 then
    { p with velocity :=
      { x := p.velocity.x, y := min p.velocity.y p.profile.wall_slide_speed } }
  else
    let g := if p.velocity.y > 0 then p.profile.falling_gravity
             else p.profile.gravity
    let vy := p.velocity.y + g
    let vy := if vy > p.profile.max_fall_speed then p.profile.max_fall_speed
              else vy
    { p with velocity := { x := p.velocity.x, y := vy } }

/-- One iteration of the platform loop of `Player.check_wall_contact`
(lines 238-248). -/
def wallScanStep (rect : Rect) (acc : Bool × Int) (s : Rect) : Bool × Int :=
  if s.colliderect (rect.inflate 2 0) then
    if rect.bottom > s.top + 5 then
      if rect.centerx < s.left then (true, 1)
      else if rect.centerx > s.right then (true, -1)
      else acc
    else acc
  else acc

/-- The platform loop of `Player.check_wall_contact` (lines 238-248):
fold over platforms, recording the last matching side. -/
def wallContactScan (rect : Rect) (platforms : List Rect) : Bool × Int :=
  platforms.foldl (wallScanStep rect) (false, 0)

/-- `Player.check_wall_contact` (lines 225-252): clear wall contact, early
return for profiles without wall slide, otherwise probe the level and reset
the stick timer on a fresh contact. -/
def check_wall_contact (p : Player) (lvl : Level) : Player :=
  let was_on_wall := p.on_wall
  let p := { p with on_wall := false, wall_direction := 0 }
  if ¬p.profile.has_wall_slide then p
  else
    let scan := wallContactScan p.rect lvl.platforms
    let p := { p with on_wall := scan.1, wall_direction := scan.2 }
    if p.on_wall ∧ ¬was_on_wall then
      { p with wall_stick_timer := p.profile.wall_stick_time }
    else p

/-- One iteration of the horizontal collision loop
(`Player.check_collisions`, lines 256-263). -/
def collideHStep (p : Player) (s : Rect) : Player :=
  if s.colliderect p.rect then
    let p :=
      if p.velocity.x > 0 then
        { p with rect := p.rect.setRight s.left,
                 velocity := { x := 0, y := p.velocity.y } }
      else p
    if p.velocity.x < 0 then
      { p with rect := p.rect.setLeft s.right,
               velocity := { x := 0, y := p.velocity.y } }
    else p
  else p

/-- `Player.check_collisions('horizontal')` (lines 255-263). -/
def collideHorizontal (p : Player) (lvl : Level) : Player :=
  lvl.platforms.foldl collideHStep p

/-- The landing branch of the vertical collision loop
(`Player.check_collisions`, lines 268-281): snap to the platform top, zero
vertical velocity, set `on_ground`, reset `air_timer`, re-arm the double
jump. -/
def landStep (p : Player) (s : Rect) : Player :=
  { p with rect := p.rect.setBottom s.top,
           velocity := { x := p.velocity.x, y := 0 },
           on_ground := true,
           air_timer := 0,
           has_double_jumped := false }

/-- The ceiling branch of the vertical collision loop (lines 282-284):
snap below the platform, zero vertical velocity. -/
def ceilStep (p : Player) (s : Rect) : Player :=
  { p with rect := p.rect.setTop s.bottom,
           velocity := { x := p.velocity.x, y := 0 } }

/-- One iteration of the vertical collision loop
(`Player.check_collisions`, lines 266-284). -/
def collideVStep (p : Player) (s : Rect) : Player :=
  if s.colliderect p.rect then
    let p := if p.velocity.y > 0 then landStep p s else p
    if p.velocity.y < 0 then ceilStep p s else p
  else p

/-- `Player.check_collisions('vertical')` (lines 265-284). -/
def collideVertical (p : Player) (lvl : Level) : Player :=
  lvl.platforms.foldl collideVStep p

/-- Exact float division as Python performs it: `ZeroDivisionError` when the
divisor is zero. -/
def pyDiv (a b : ℚ) : Except String ℚ :=
  if b = 0 then .error "ZeroDivisionError" else .ok (a / b)

/-- `can_jump` (`Player.jump`, line 345): grounded or inside the coyote
window. -/
def canJump (p : Player) : Prop :=
  p.on_ground ∨ p.air_timer < p.profile.coyote_time

instance (p : Player) : Decidable (canJump p) := by
  unfold canJump; infer_instance

/-- `can_double_jump` (`Player.jump`, line 346): double jump available,
airborne, not yet used, and not coyote-eligible. -/
def canDoubleJump (p : Player) : Prop :=
  p.profile.has_double_jump ∧ ¬p.on_ground ∧ ¬p.has_double_jumped ∧
  ¬canJump p

instance (p : Player) : Decidable (canDoubleJump p) := by
  unfold canDoubleJump; infer_instance

/-- `Player.jump` (lines 286-367): wall jump (three styles) checked first,
then ground/coyote/double jump with the speed-ratio bonus and dash-jump
multiplier.  The speed-ratio division can fault when `run_speed = 0`. -/
def jump (p : Player) : Except String Player :=
  if p.profile.has_wall_jump ∧ p.on_wall ∧ p.jump_buffer_timer > 0 then
    let input_direction := p.last_input_direction
    let p :=
      if p.profile.wall_jump_style = "smb" then
        { p with velocity :=
          { x := -(p.wall_direction : ℚ) * p.profile.run_speed * 1.2,
            y := -p.profile.jump_force } }
      else if p.profile.wall_jump_style = "celeste" then
        let vx : ℚ :=
          if input_direction = -p.wall_direction then
            -(p.wall_direction : ℚ) * p.profile.run_speed * 1.0
          else if input_direction = p.wall_direction then
            (p.wall_direction : ℚ) * p.profile.walk_speed * 0.3
          else
            -(p.wall_direction : ℚ) * p.profile.walk_speed * 0.6
        { p with velocity := { x := vx, y := -p.profile.jump_force } }
      else if p.profile.wall_jump_style = "npp" then
        let kick_speed := max |p.velocity.x| p.profile.walk_speed
        { p with velocity :=
          { x := -(p.wall_direction : ℚ) * kick_speed * 1.1,
            y := -p.profile.jump_force * 0.9 } }
      else p
    .ok { p with jump_buffer_timer := 0, on_wall := false }
  else
    if p.jump_buffer_timer > 0 ∧ (canJump p ∨ canDoubleJump p) then do
      let jump_strength : ℚ := p.profile.jump_force
      let jump_strength ←
        if p.profile.jump_force_run_bonus > 0 then do
          let speed_ratio ← pyDiv |p.velocity.x| p.profile.run_speed
          pure (jump_strength + p.profile.jump_force_run_bonus * speed_ratio)
        else pure jump_strength
      let jump_strength :=
        if p.dash_active then jump_strength * 1.2 else jump_strength
      .ok { p with
        velocity := { x := p.velocity.x, y := -jump_strength },
        jump_buffer_timer := 0,
        on_ground := false,
        air_timer := p.profile.coyote_time,
        has_double_jumped :=
          if canDoubleJump p then true else p.has_double_jumped }
    else .ok p

/-- The coyote-timer step of `Player.update` (lines 625-626). -/
def airTimerStage (p : Player) : Player :=
  if ¬p.on_ground then { p with air_timer := p.air_timer + 1 } else p

/-- The horizontal displacement `self.rect.x += self.velocity.x`
(`update`, line 610). -/
def moveX (p : Player) : Player :=
  { p with rect := { p.rect with x := p.rect.x + p.velocity.x } }

/-- `self.on_ground = False` before the vertical pass (`update`, line 620). -/
def setAirborne (p : Player) : Player := { p with on_ground := false }

/-- The vertical displacement `self.rect.y += self.velocity.y`
(`update`, line 621). -/
def moveY (p : Player) : Player :=
  { p with rect := { p.rect with y := p.rect.y + p.velocity.y } }

/-- `Player.update` up to (excluding) the `self.jump()` call
(lines 606-626): input, horizontal motion and collisions, wall contact,
gravity, vertical motion and collisions, coyote timer. -/
def preJump (p : Player) (lvl : Level) (inp : InputState) : Player :=
  airTimerStage
    (collideVertical
      (moveY (setAirborne
        (apply_gravity
          (check_wall_contact
            (collideHorizontal (moveX (get_input p inp)) lvl)
            lvl))))
      lvl)

/-- `Player.reset` (lines 649-654): back to spawn, zero velocity, cancel
dash, re-arm double jump.  Nothing else is written. -/
def reset (p : Player) : Player :=
  { p with
    rect := { p.rect with x := p.original_pos.1, y := p.original_pos.2 },
    velocity := { x := 0, y := 0 },
    dash_active := false,
    has_double_jumped := false }

/-- `Player.update` after the `self.jump()` call (lines 631-637): hazard
contact and fell-off-world checks, each triggering `reset`. -/
def postJump (p : Player) (lvl : Level) : Player :=
  let p := if lvl.hazards.any (fun hz => p.rect.colliderect hz) then reset p
           else p
  if p.rect.top > SCREEN_HEIGHT then reset p else p

/-- One full simulation tick, `Player.update` (lines 606-647), minus the
purely visual `update_visuals`/particle calls. -/
def update (p : Player) (lvl : Level) (inp : InputState) :
    Except String Player := do
  let pre := preJump p lvl inp
  let q ← jump pre
  pure (postJump q lvl)

/-- `Player.switch_profile` (lines 656-661). -/
def switch_profile (p : Player) (new_profile : CharacterProfile) : Player :=
  { p with profile := new_profile,
           has_double_jumped := false,
           dash_active := false }

/-- `MARIO` (`src/character_profiles.py`, lines 138-172). -/
def MARIO : CharacterProfile :=
  { name := "Mario",
    walk_speed := 4.0, run_speed := 8.0,
    acceleration := 0.3, deceleration := 0.3, skid_deceleration := 0.6,
    has_momentum := true,
    jump_force := 14.0, jump_force_run_bonus := 2.0,
    variable_jump := true, has_double_jump := false,
    has_wall_jump := false, has_wall_slide := false,
    has_dash := false, dash_speed := 0.0, dash_duration := 0,
    gravity := 0.6, falling_gravity := 1.0, max_fall_speed := 12.0,
    air_acceleration_multiplier := 0.7, no_horizontal_drag := true,
    wall_slide_speed := 0.0,
    run_buffer_frames := 10, coyote_time := 6, jump_buffer := 5,
    color := (200, 30, 30),
    description := "Momentum-based, weighty feel, speed affects jump height" }

/-- `SUPER_MEAT_BOY` (`src/character_profiles.py`, lines 175-211). -/
def SUPER_MEAT_BOY : CharacterProfile :=
  { name := "Super Meat Boy",
    walk_speed := 6.0, run_speed := 10.0,
    acceleration := 2.0, deceleration := 2.0, skid_deceleration := 2.0,
    has_momentum := false,
    jump_force := 15.0, jump_force_run_bonus := 0.0,
    variable_jump := true, has_double_jump := false,
    has_wall_jump := true, has_wall_slide := true,
    has_dash := false, dash_speed := 0.0, dash_duration := 0,
    gravity := 0.7, falling_gravity := 0.7, max_fall_speed := 15.0,
    air_acceleration_multiplier := 1.0, no_horizontal_drag := true,
    wall_slide_speed := 2.0,
    run_buffer_frames := 0, coyote_time := 4, jump_buffer := 3,
    color := (120, 40, 40),
    description := "Ultra-responsive, wall jumps, buzzsaw survivor",
    wall_jump_style := "smb", wall_stick_time := 15 }

/-- `ZELDA_LINK` (`src/character_profiles.py`, lines 214-248). -/
def ZELDA_LINK : CharacterProfile :=
  { name := "Link",
    walk_speed := 4.5, run_speed := 4.5,
    acceleration := 1.5, deceleration := 1.5, skid_deceleration := 1.5,
    has_momentum := false,
    jump_force := 13.0, jump_force_run_bonus := 0.0,
    variable_jump := false, has_double_jump := false,
    has_wall_jump := false, has_wall_slide := false,
    has_dash := true, dash_speed := 12.0, dash_duration := 20,
    gravity := 0.8, falling_gravity := 0.8, max_fall_speed := 12.0,
    air_acceleration_multiplier := 0.5, no_horizontal_drag := false,
    wall_slide_speed := 0.0,
    run_buffer_frames := 0, coyote_time := 3, jump_buffer := 3,
    color := (40, 180, 40),
    description := "Precise control, dash-jump combos, simple physics" }

/-- `MADELINE` (`src/character_profiles.py`, lines 251-287). -/
def MADELINE : CharacterProfile :=
  { name := "Madeline",
    walk_speed := 5.5, run_speed := 5.5,
    acceleration := 1.2, deceleration := 1.2, skid_deceleration := 1.2,
    has_momentum := false,
    jump_force := 14.5, jump_force_run_bonus := 0.0,
    variable_jump := true, has_double_jump := true,
    has_wall_jump := true, has_wall_slide := true,
    has_dash := true, dash_speed := 15.0, dash_duration := 12,
    gravity := 0.65, falling_gravity := 0.9, max_fall_speed := 13.0,
    air_acceleration_multiplier := 0.85, no_horizontal_drag := true,
    wall_slide_speed := 1.5,
    run_buffer_frames := 0, coyote_time := 5, jump_buffer := 4,
    color := (230, 80, 120),
    description := "Double jump + wall jump, air dash, excellent air control",
    wall_jump_style := "celeste", wall_stick_time := 10 }

/-- `N_NINJA` (`src/character_profiles.py`, lines 290-326). -/
def N_NINJA : CharacterProfile :=
  { name := "Ninja (N++)",
    walk_speed := 5.0, run_speed := 11.0,
    acceleration := 0.4, deceleration := 0.2, skid_deceleration := 0.3,
    has_momentum := true,
    jump_force := 13.0, jump_force_run_bonus := 0.0,
    variable_jump := true, has_double_jump := false,
    has_wall_jump := true, has_wall_slide := true,
    has_dash := false, dash_speed := 0.0, dash_duration := 0,
    gravity := 0.55, falling_gravity := 0.55, max_fall_speed := 18.0,
    air_acceleration_multiplier := 0.9, no_horizontal_drag := true,
    wall_slide_speed := 2.5,
    run_buffer_frames := 15, coyote_time := 5, jump_buffer := 5,
    color := (180, 180, 180),
    description := "Floaty, high momentum, fluid parkour flow",
    wall_jump_style := "npp", wall_stick_time := 0 }

/-! ## Shared concrete states for witnesses and counterexamples -/

/-- The all-released input state. -/
def noInput : InputState :=
  { left := false, right := false, run := false, jump := false, dash := false }

/-- A level with no geometry at all (a valid level per the spec: the actor
free-falls). -/
def emptyLevel : Level := { platforms := [], hazards := [] }

/-! ## Profile mutation surface (claim C9) -/

theorem applyEdit_defaults (s : ProfileState) (e : ProfileEdit) :
    (applyEdit s e).defaults = s.defaults := rfl

theorem applyEdits_defaults (s : ProfileState) (es : List ProfileEdit) :
    (applyEdits s es).defaults = s.defaults := by
  induction es generalizing s with
  | nil => rfl
  | cons e es ih =>
    simpa [applyEdits, List.foldl_cons] using ih (applyEdit s e)

/-- C9: after any finite sequence of in-place parameter edits,
`reset_physics` restores exactly the five snapshotted fields (`gravity`,
`falling_gravity`, `walk_speed`, `acceleration`, `jump_force`) to their
construction-time values, and leaves every other field (e.g. `has_dash`)
at its post-edit value; the snapshot itself is also unchanged. -/
theorem reset_physics_roundtrip (c : CharacterProfile)
    (es : List ProfileEdit) :
    let s := applyEdits (mkProfile c) es
    let r := s.reset_physics
    r.fields.gravity = c.gravity ∧
    r.fields.falling_gravity = c.falling_gravity ∧
    r.fields.walk_speed = c.walk_speed ∧
    r.fields.acceleration = c.acceleration ∧
    r.fields.jump_force = c.jump_force ∧
    r.fields.name = s.fields.name ∧
    r.fields.run_speed = s.fields.run_speed ∧
    r.fields.deceleration = s.fields.deceleration ∧
    r.fields.skid_deceleration = s.fields.skid_deceleration ∧
    r.fields.has_momentum = s.fields.has_momentum ∧
    r.fields.jump_force_run_bonus = s.fields.jump_force_run_bonus ∧
    r.fields.variable_jump = s.fields.variable_jump ∧
    r.fields.has_double_jump = s.fields.has_double_jump ∧
    r.fields.has_dash = s.fields.has_dash ∧
    r.fields.dash_speed = s.fields.dash_speed ∧
    r.fields.dash_duration = s.fields.dash_duration ∧
    r.fields.max_fall_speed = s.fields.max_fall_speed ∧
    r.fields.air_acceleration_multiplier
      = s.fields.air_acceleration_multiplier ∧
    r.fields.no_horizontal_drag = s.fields.no_horizontal_drag ∧
    r.fields.run_buffer_frames = s.fields.run_buffer_frames ∧
    r.fields.coyote_time = s.fields.coyote_time ∧
    r.fields.jump_buffer = s.fields.jump_buffer ∧
    r.fields.color = s.fields.color ∧
    r.fields.description = s.fields.description ∧
    r.fields.has_wall_slide = s.fields.has_wall_slide ∧
    r.fields.wall_slide_speed = s.fields.wall_slide_speed ∧
    r.fields.has_wall_jump = s.fields.has_wall_jump ∧
    r.fields.wall_jump_style = s.fields.wall_jump_style ∧
    r.fields.wall_stick_time = s.fields.wall_stick_time ∧
    r.defaults = s.defaults := by
  intro s r
  have hd : s.defaults = (mkProfile c).defaults := applyEdits_defaults _ _
  refine ⟨?_, ?_, ?_, ?_, ?_, ?_, ?_, ?_, ?_, ?_, ?_, ?_, ?_, ?_, ?_, ?_,
    ?_, ?_, ?_, ?_, ?_, ?_, ?_, ?_, ?_, ?_, ?_, ?_, ?_, ?_⟩ <;>
    simp [r, ProfileState.reset_physics, hd, mkProfile]

/-! ## Reset and profile switch (claim C4) -/

/-- A player mid-flight with every countdown timer nonzero, used to observe
what `reset` and `switch_profile` actually clear. -/
def timersPlayer : Player :=
  { mkPlayer (200, 600) MADELINE with
    velocity := { x := 3, y := -2 },
    dash_active := true,
    air_timer := 7, jump_buffer_timer := 3, run_buffer_timer := 4,
    wall_stick_timer := 2, dash_timer := 6 }

/-- C4 counterexample: after a level reset (and likewise after a profile
switch) the countdown timers are NOT cleared — a state with
coyote/jump-buffer/run-buffer/wall-stick/dash timers 7, 3, 4, 2, 6 keeps
exactly those values, refuting "all explicitly cleared". -/
theorem reset_clears_timers_cex :
    (reset timersPlayer).air_timer = 7 ∧
    (reset timersPlayer).jump_buffer_timer = 3 ∧
    (reset timersPlayer).run_buffer_timer = 4 ∧
    (reset timersPlayer).wall_stick_timer = 2 ∧
    (reset timersPlayer).dash_timer = 6 ∧
    (reset timersPlayer).jump_buffer_timer ≠ 0 ∧
    (switch_profile timersPlayer MARIO).air_timer = 7 ∧
    (switch_profile timersPlayer MARIO).jump_buffer_timer = 3 ∧
    (switch_profile timersPlayer MARIO).run_buffer_timer = 4 ∧
    (switch_profile timersPlayer MARIO).wall_stick_timer = 2 ∧
    (switch_profile timersPlayer MARIO).dash_timer = 6 := by
  decide

/-- C4 (amended): a level reset restores the spawn position, zeroes the
velocity and clears only the `dash_active` and `has_double_jumped` flags;
a profile switch clears only those two flags.  Neither clears any of the
coyote/jump-buffer/run-buffer/wall-stick/dash countdown timers: all five
persist unchanged across both operations. -/
theorem reset_and_switch_preserve_timers (p : Player)
    (np : CharacterProfile) :
    (reset p).air_timer = p.air_timer ∧
    (reset p).jump_buffer_timer = p.jump_buffer_timer ∧
    (reset p).run_buffer_timer = p.run_buffer_timer ∧
    (reset p).wall_stick_timer = p.wall_stick_timer ∧
    (reset p).dash_timer = p.dash_timer ∧
    (reset p).rect.x = p.original_pos.1 ∧
    (reset p).rect.y = p.original_pos.2 ∧
    (reset p).velocity = { x := 0, y := 0 } ∧
    (reset p).dash_active = false ∧
    (reset p).has_double_jumped = false ∧
    (switch_profile p np).air_timer = p.air_timer ∧
    (switch_profile p np).jump_buffer_timer = p.jump_buffer_timer ∧
    (switch_profile p np).run_buffer_timer = p.run_buffer_timer ∧
    (switch_profile p np).wall_stick_timer = p.wall_stick_timer ∧
    (switch_profile p np).dash_timer = p.dash_timer ∧
    (switch_profile p np).rect = p.rect ∧
    (switch_profile p np).velocity = p.velocity ∧
    (switch_profile p np).dash_active = false ∧
    (switch_profile p np).has_double_jumped = false := by
  refine ⟨rfl, rfl, rfl, rfl, rfl, rfl, rfl, rfl, rfl, rfl, rfl, rfl, rfl,
    rfl, rfl, rfl, rfl, rfl, rfl⟩

/-! ## Wall jump and ground jump (claims C2, C3, C7) -/

/-- A wall-adjacent, grounded state with a live buffered request and an
invalid `wall_jump_style`, for observing the invalid-style tick.  A ground
jump would fire here (grounded, buffer 3) if the branch fell through. -/
def invalidStylePlayer : Player :=
  { mkPlayer (200, 600) { SUPER_MEAT_BOY with wall_jump_style := "bogus" } with
    on_wall := true, wall_direction := 1, on_ground := true,
    jump_buffer_timer := 3 }

set_option maxRecDepth 8000 in
/-- C2 counterexample: with the wall-jump preconditions held and an invalid
style, the tick does not behave as if the branch were disabled: the
buffered request is consumed (`jump_buffer_timer` becomes `0`, not `3`
ticking down), and the ground jump that was available (grounded, live
buffer, `jump_force = 15`) is NOT evaluated — `velocity.y` stays `0`
instead of becoming `-15`. -/
theorem invalid_wall_jump_style_cex :
    invalidStylePlayer.on_ground = true ∧
    invalidStylePlayer.jump_buffer_timer = 3 ∧
    invalidStylePlayer.profile.jump_force = 15 ∧
    jump invalidStylePlayer =
      Except.ok { invalidStylePlayer with
                  jump_buffer_timer := 0, on_wall := false } ∧
    (jump invalidStylePlayer).map (fun q => q.velocity.y) = .ok 0 ∧
    (jump invalidStylePlayer).map (fun q => q.jump_buffer_timer) = .ok 0 := by
  with_unfolding_all decide

/-- C2 (amended): when the wall-jump preconditions hold (`has_wall_jump`,
on a wall, live buffered request) but `wall_jump_style` is not one of the
three valid styles, the tick applies no velocity impulse and raises no
fault, and the invalid style is reported as a construction-time diagnostic;
however the branch is not disabled: it still consumes the buffered request
(cleared to `0`), clears `on_wall`, and skips the ground/coyote/double-jump
evaluation for that tick. -/
theorem invalid_wall_jump_style_consumes_buffer (p : Player)
    (hwj : p.profile.has_wall_jump = true)
    (hw : p.on_wall = true)
    (hb : p.jump_buffer_timer > 0)
    (h1 : p.profile.wall_jump_style ≠ "smb")
    (h2 : p.profile.wall_jump_style ≠ "celeste")
    (h3 : p.profile.wall_jump_style ≠ "npp") :
    jump p = Except.ok { p with jump_buffer_timer := 0, on_wall := false } ∧
    "wall_jump_style should be celeste/smb/npp" ∈
      validateWarnings p.profile := by
  constructor
  · simp [jump, hwj, hw, hb, h1, h2, h3]
  · unfold validateWarnings
    have : ¬(p.profile.wall_jump_style = "celeste" ∨
        p.profile.wall_jump_style = "smb" ∨
        p.profile.wall_jump_style = "npp") := by
      rintro (h | h | h) <;> [exact h2 h; exact h1 h; exact h3 h]
    rw [if_neg this]
    simp

/-- Witness for `invalid_wall_jump_style_consumes_buffer` at the concrete
state `invalidStylePlayer`. -/
theorem invalid_wall_jump_style_consumes_buffer_witness :
    jump invalidStylePlayer =
      Except.ok { invalidStylePlayer with
                  jump_buffer_timer := 0, on_wall := false } ∧
    "wall_jump_style should be celeste/smb/npp" ∈
      validateWarnings invalidStylePlayer.profile :=
  invalid_wall_jump_style_consumes_buffer invalidStylePlayer
    rfl rfl (by decide) (by decide) (by decide) (by decide)

/-- A grounded player whose profile has a positive speed-ratio jump bonus
but `run_speed = 0`, pressing a buffered jump. -/
def zeroRunSpeedPlayer : Player :=
  { mkPlayer (200, 600) { MARIO with run_speed := 0 } with
    on_ground := true, jump_buffer_timer := 3 }

/-- C3: the speed-ratio jump bonus is NOT special-cased for
`run_speed = 0`: a successful ground jump attempt with
`jump_force_run_bonus > 0` and `run_speed = 0` evaluates
`abs(velocity.x) / run_speed` and faults with `ZeroDivisionError` instead
of applying the base `jump_force` — the code contradicts the documented
requirement to skip the bonus. -/
theorem zero_run_speed_division_fault :
    zeroRunSpeedPlayer.profile.jump_force_run_bonus > 0 ∧
    zeroRunSpeedPlayer.profile.run_speed = 0 ∧
    zeroRunSpeedPlayer.on_ground = true ∧
    zeroRunSpeedPlayer.jump_buffer_timer > 0 ∧
    jump zeroRunSpeedPlayer = Except.error "ZeroDivisionError" := by
  with_unfolding_all decide

/-- C7: whenever a style-A (`"smb"`) wall jump fires — `has_wall_jump`, on
a wall, live buffered request, style `"smb"` — the resulting velocity is
exactly `(-wall_direction × run_speed × 1.2, -jump_force)` regardless of
the held input direction, the buffered request is cleared and `on_wall` is
cleared; nothing else changes. -/
theorem smb_wall_jump_kick (p : Player)
    (hwj : p.profile.has_wall_jump = true)
    (hw : p.on_wall = true)
    (hb : p.jump_buffer_timer > 0)
    (hs : p.profile.wall_jump_style = "smb") :
    jump p = Except.ok { p with
      velocity :=
        { x := -(p.wall_direction : ℚ) * p.profile.run_speed * 1.2,
          y := -p.profile.jump_force },
      jump_buffer_timer := 0, on_wall := false } := by
  simp [jump, hwj, hw, hb, hs]

set_option maxRecDepth 8000 in
/-- Witness for `smb_wall_jump_kick`: Super Meat Boy on a right-hand wall
while holding toward the wall still gets the fixed away-kick
`(-1 × 10 × 1.2, -15) = (-12, -15)`. -/
theorem smb_wall_jump_kick_witness :
    jump { mkPlayer (200, 600) SUPER_MEAT_BOY with
           on_wall := true, wall_direction := 1, jump_buffer_timer := 2,
           last_input_direction := 1 } =
      Except.ok { mkPlayer (200, 600) SUPER_MEAT_BOY with
                  on_wall := false, wall_direction := 1,
                  jump_buffer_timer := 0, last_input_direction := 1,
                  velocity := { x := -12, y := -15 } } := by
  rw [smb_wall_jump_kick _ rfl rfl (by decide) rfl]
  with_unfolding_all decide

/-! ## Stage bookkeeping lemmas -/

theorem dashInputStage_fields (p : Player) (inp : InputState) :
    (dashInputStage p inp).profile = p.profile ∧
    (dashInputStage p inp).jump_buffer_timer = p.jump_buffer_timer ∧
    (dashInputStage p inp).jump_button_was_pressed
      = p.jump_button_was_pressed ∧
    (dashInputStage p inp).velocity = p.velocity ∧
    (dashInputStage p inp).on_ground = p.on_ground ∧
    (dashInputStage p inp).on_wall = p.on_wall ∧
    (dashInputStage p inp).wall_direction = p.wall_direction ∧
    (dashInputStage p inp).air_timer = p.air_timer ∧
    (dashInputStage p inp).has_double_jumped = p.has_double_jumped ∧
    (dashInputStage p inp).rect = p.rect ∧
    (dashInputStage p inp).original_pos = p.original_pos ∧
    (dashInputStage p inp).wall_stick_timer = p.wall_stick_timer ∧
    (dashInputStage p inp).run_buffer_timer = p.run_buffer_timer := by
  unfold dashInputStage
  split <;>
    exact ⟨rfl, rfl, rfl, rfl, rfl, rfl, rfl, rfl, rfl, rfl, rfl, rfl, rfl⟩

theorem dashOverrideStage_fields (p : Player) :
    (dashOverrideStage p).profile = p.profile ∧
    (dashOverrideStage p).jump_buffer_timer = p.jump_buffer_timer ∧
    (dashOverrideStage p).jump_button_was_pressed
      = p.jump_button_was_pressed ∧
    (dashOverrideStage p).velocity.y = p.velocity.y ∧
    (dashOverrideStage p).on_ground = p.on_ground ∧
    (dashOverrideStage p).on_wall = p.on_wall ∧
    (dashOverrideStage p).wall_direction = p.wall_direction ∧
    (dashOverrideStage p).air_timer = p.air_timer ∧
    (dashOverrideStage p).has_double_jumped = p.has_double_jumped ∧
    (dashOverrideStage p).rect = p.rect ∧
    (dashOverrideStage p).original_pos = p.original_pos := by
  unfold dashOverrideStage
  dsimp only
  split <;>
    exact ⟨rfl, rfl, rfl, rfl, rfl, rfl, rfl, rfl, rfl, rfl, rfl⟩

theorem get_input_fields (p : Player) (inp : InputState) :
    (get_input p inp).profile = p.profile ∧
    (get_input p inp).velocity.y = p.velocity.y ∧
    (get_input p inp).on_ground = p.on_ground ∧
    (get_input p inp).on_wall = p.on_wall ∧
    (get_input p inp).wall_direction = p.wall_direction ∧
    (get_input p inp).air_timer = p.air_timer ∧
    (get_input p inp).has_double_jumped = p.has_double_jumped ∧
    (get_input p inp).rect = p.rect ∧
    (get_input p inp).original_pos = p.original_pos := by
  have hq := dashInputStage_fields p inp
  unfold get_input
  split
  · have ho := dashOverrideStage_fields (dashInputStage p inp)
    exact ⟨ho.1.trans hq.1,
      (ho.2.2.2.1.trans (congrArg Vec2.y hq.2.2.2.1)),
      ho.2.2.2.2.1.trans hq.2.2.2.2.1,
      ho.2.2.2.2.2.1.trans hq.2.2.2.2.2.1,
      ho.2.2.2.2.2.2.1.trans hq.2.2.2.2.2.2.1,
      ho.2.2.2.2.2.2.2.1.trans hq.2.2.2.2.2.2.2.1,
      ho.2.2.2.2.2.2.2.2.1.trans hq.2.2.2.2.2.2.2.2.1,
      ho.2.2.2.2.2.2.2.2.2.1.trans hq.2.2.2.2.2.2.2.2.2.1,
      ho.2.2.2.2.2.2.2.2.2.2.trans hq.2.2.2.2.2.2.2.2.2.2.1⟩
  · exact ⟨hq.1,
      show (dashInputStage p inp).velocity.y = p.velocity.y from
        congrArg Vec2.y hq.2.2.2.1,
      hq.2.2.2.2.1, hq.2.2.2.2.2.1, hq.2.2.2.2.2.2.1,
      hq.2.2.2.2.2.2.2.1, hq.2.2.2.2.2.2.2.2.1,
      hq.2.2.2.2.2.2.2.2.2.1, hq.2.2.2.2.2.2.2.2.2.2.1⟩

/-! ## Jump buffer countdown (claim C5) -/

/-- A dashing Link mid-air with a live buffered jump request: the tick
under scrutiny for the jump-buffer countdown. -/
def dashTickPlayer : Player :=
  { mkPlayer (200, 600) ZELDA_LINK with
    dash_active := true, dash_timer := 5, dash_direction := 1,
    air_timer := 100, jump_buffer_timer := 3 }

/-- C5 counterexample: on a tick with an active dash and no press edge, the
jump buffer does NOT decrement (3 stays 3, instead of the claimed
`max 0 (3-1) = 2`): the early dash return in `get_input` skips the buffer
update entirely. -/
theorem jump_buffer_dash_tick_cex :
    dashTickPlayer.dash_active = true ∧
    dashTickPlayer.jump_buffer_timer = 3 ∧
    (update dashTickPlayer emptyLevel noInput).map
      (fun q => q.jump_buffer_timer) = .ok 3 ∧
    (3 : Int) ≠ max 0 (3 - 1) := by
  refine ⟨rfl, rfl, ?_, by decide⟩
  with_unfolding_all decide

/-- C5 (amended): the jump buffer counts down only on ticks where the dash
override path is not taken: there, a press edge re-arms it to
`jump_buffer` and otherwise it decrements by one saturating at zero.  On a
tick where a dash is active (or just activated), `get_input` returns early
and the buffer is left unchanged — neither re-armed nor decremented. -/
theorem jump_buffer_tick (p : Player) (inp : InputState) :
    (get_input p inp).jump_buffer_timer =
      if (dashInputStage p inp).dash_active then p.jump_buffer_timer
      else if inp.jump ∧ ¬p.jump_button_was_pressed then
        p.profile.jump_buffer
      else max 0 (p.jump_buffer_timer - 1) := by
  have hq := dashInputStage_fields p inp
  unfold get_input
  split
  next hdash =>
    exact (dashOverrideStage_fields _).2.1.trans hq.2.1
  next hdash =>
    show (if inp.jump ∧ ¬(dashInputStage p inp).jump_button_was_pressed then
        (dashInputStage p inp).profile.jump_buffer
      else max 0 ((dashInputStage p inp).jump_buffer_timer - 1)) = _
    rw [hq.1, hq.2.1, hq.2.2.1]

/-! ## Zero-tick convergence for non-momentum profiles (claim C6) -/

/-- A non-momentum (Link) player drifting airborne at `velocity.x = 6`
with no directional input held. -/
def airDriftPlayer : Player :=
  { mkPlayer (200, 600) ZELDA_LINK with
    velocity := { x := 6, y := 0 }, air_timer := 100 }

/-- C6 counterexample: a `has_momentum = false` profile does NOT converge
to the target speed in zero ticks in every state: airborne with neutral
input (target 0) and `no_horizontal_drag = false`, one tick takes
`velocity.x` from `6` to `5.8` (the fixed `0.2` air drag), not to `0`. -/
theorem no_momentum_airborne_cex :
    airDriftPlayer.profile.has_momentum = false ∧
    airDriftPlayer.on_ground = false ∧
    moveDirRaw noInput = 0 ∧
    (update airDriftPlayer emptyLevel noInput).map
      (fun q => q.velocity.x) = .ok 5.8 ∧
    (5.8 : ℚ) ≠ 0 := by
  refine ⟨rfl, rfl, rfl, ?_, by norm_num⟩
  with_unfolding_all decide

/-- C6 (amended): for a `has_momentum = false` profile, on ticks where the
dash override path is not taken, horizontal velocity converges in zero
ticks whenever the target speed is nonzero or the actor is grounded:
`velocity.x` snaps to the target speed (signed run/walk speed from the
effective post-wall-stick direction, or `0` on grounded neutral input)
within `get_input` itself.  Airborne with a zero target, `velocity.x` is
instead air-dragged by `0.2` toward `0` (or left unchanged under
`no_horizontal_drag`) rather than snapping. -/
theorem no_momentum_snap (p : Player) (inp : InputState)
    (hm : p.profile.has_momentum = false)
    (hd : (dashInputStage p inp).dash_active = false)
    (h : targetSpeedOf p inp ≠ 0 ∨ p.on_ground = true) :
    (get_input p inp).velocity.x = targetSpeedOf p inp := by
  obtain ⟨f1, f2, f3, f4, f5, f6, f7, f8, f9, f10, f11, f12, f13⟩ :=
    dashInputStage_fields p inp
  have hts : targetSpeedOf (dashInputStage p inp) inp
      = targetSpeedOf p inp := by
    unfold targetSpeedOf effMoveDir wallStickPair isRunningAfter
      runBufferAfter
    simp only [f1, f5, f6, f7, f12, f13]
  unfold get_input
  rw [if_neg (by simp [hd])]
  show velocityXAfter (dashInputStage p inp) inp = targetSpeedOf p inp
  unfold velocityXAfter
  simp only [hts, f1, f4, f5]
  rcases h with h | h
  · rw [if_pos h, if_pos (by simp [hm])]
  · by_cases ht : targetSpeedOf p inp = 0
    · rw [if_neg (by simpa using ht), if_pos h, if_pos (by simp [hm])]
      exact ht.symm
    · rw [if_pos ht, if_pos (by simp [hm])]

/-- Witness for `no_momentum_snap`: grounded Super Meat Boy holding
run+right snaps to `run_speed = 10` on that very tick. -/
theorem no_momentum_snap_witness :
    targetSpeedOf { mkPlayer (200, 600) SUPER_MEAT_BOY with
        on_ground := true }
      { noInput with right := true, run := true } ≠ 0 ∧
    (get_input { mkPlayer (200, 600) SUPER_MEAT_BOY with
        on_ground := true }
      { noInput with right := true, run := true }).velocity.x =
    targetSpeedOf { mkPlayer (200, 600) SUPER_MEAT_BOY with
        on_ground := true }
      { noInput with right := true, run := true } :=
  ⟨by with_unfolding_all decide,
   no_momentum_snap _ _ rfl rfl (Or.inl (by with_unfolding_all decide))⟩

/-! ## Preservation lemmas for the collision, gravity and jump stages -/

theorem collideHStep_fields (p : Player) (s : Rect) :
    (collideHStep p s).profile = p.profile ∧
    (collideHStep p s).on_ground = p.on_ground ∧
    (collideHStep p s).on_wall = p.on_wall ∧
    (collideHStep p s).wall_direction = p.wall_direction ∧
    (collideHStep p s).air_timer = p.air_timer ∧
    (collideHStep p s).has_double_jumped = p.has_double_jumped ∧
    (collideHStep p s).jump_buffer_timer = p.jump_buffer_timer ∧
    (collideHStep p s).velocity.y = p.velocity.y ∧
    (collideHStep p s).dash_active = p.dash_active ∧
    (collideHStep p s).dash_timer = p.dash_timer ∧
    (collideHStep p s).last_input_direction = p.last_input_direction ∧
    (collideHStep p s).original_pos = p.original_pos := by
  unfold collideHStep
  dsimp only
  split
  · split <;> split <;>
      exact ⟨rfl, rfl, rfl, rfl, rfl, rfl, rfl, rfl, rfl, rfl, rfl, rfl⟩
  · exact ⟨rfl, rfl, rfl, rfl, rfl, rfl, rfl, rfl, rfl, rfl, rfl, rfl⟩

theorem collideHorizontal_fields (p : Player) (lvl : Level) :
    (collideHorizontal p lvl).profile = p.profile ∧
    (collideHorizontal p lvl).on_ground = p.on_ground ∧
    (collideHorizontal p lvl).on_wall = p.on_wall ∧
    (collideHorizontal p lvl).wall_direction = p.wall_direction ∧
    (collideHorizontal p lvl).air_timer = p.air_timer ∧
    (collideHorizontal p lvl).has_double_jumped = p.has_double_jumped ∧
    (collideHorizontal p lvl).jump_buffer_timer = p.jump_buffer_timer ∧
    (collideHorizontal p lvl).velocity.y = p.velocity.y ∧
    (collideHorizontal p lvl).dash_active = p.dash_active ∧
    (collideHorizontal p lvl).dash_timer = p.dash_timer ∧
    (collideHorizontal p lvl).last_input_direction
      = p.last_input_direction ∧
    (collideHorizontal p lvl).original_pos = p.original_pos := by
  unfold collideHorizontal
  generalize lvl.platforms = l
  induction l generalizing p with
  | nil =>
    exact ⟨rfl, rfl, rfl, rfl, rfl, rfl, rfl, rfl, rfl, rfl, rfl, rfl⟩
  | cons s t ih =>
    rw [List.foldl_cons]
    obtain ⟨a1, a2, a3, a4, a5, a6, a7, a8, a9, a10, a11, a12⟩ :=
      collideHStep_fields p s
    obtain ⟨b1, b2, b3, b4, b5, b6, b7, b8, b9, b10, b11, b12⟩ :=
      ih (collideHStep p s)
    exact ⟨b1.trans a1, b2.trans a2, b3.trans a3, b4.trans a4, b5.trans a5,
      b6.trans a6, b7.trans a7, b8.trans a8, b9.trans a9, b10.trans a10,
      b11.trans a11, b12.trans a12⟩

theorem check_wall_contact_fields (p : Player) (lvl : Level) :
    (check_wall_contact p lvl).profile = p.profile ∧
    (check_wall_contact p lvl).on_ground = p.on_ground ∧
    (check_wall_contact p lvl).air_timer = p.air_timer ∧
    (check_wall_contact p lvl).has_double_jumped = p.has_double_jumped ∧
    (check_wall_contact p lvl).jump_buffer_timer = p.jump_buffer_timer ∧
    (check_wall_contact p lvl).velocity = p.velocity ∧
    (check_wall_contact p lvl).rect = p.rect ∧
    (check_wall_contact p lvl).dash_active = p.dash_active ∧
    (check_wall_contact p lvl).dash_timer = p.dash_timer ∧
    (check_wall_contact p lvl).last_input_direction
      = p.last_input_direction ∧
    (check_wall_contact p lvl).original_pos = p.original_pos := by
  unfold check_wall_contact
  dsimp only
  split
  · exact ⟨rfl, rfl, rfl, rfl, rfl, rfl, rfl, rfl, rfl, rfl, rfl⟩
  · split <;>
      exact ⟨rfl, rfl, rfl, rfl, rfl, rfl, rfl, rfl, rfl, rfl, rfl⟩

/-- For a profile without wall slide, `check_wall_contact` always ends with
no wall contact (`player.py` lines 228-232). -/
theorem check_wall_contact_no_slide (p : Player) (lvl : Level)
    (h : p.profile.has_wall_slide = false) :
    (check_wall_contact p lvl).on_wall = false ∧
    (check_wall_contact p lvl).wall_direction = 0 := by
  unfold check_wall_contact
  dsimp only
  rw [if_pos (by simp [h])]
  exact ⟨rfl, rfl⟩

/-- With no platforms at all, `check_wall_contact` finds no wall. -/
theorem check_wall_contact_empty (p : Player) (lvl : Level)
    (hplat : lvl.platforms = []) :
    (check_wall_contact p lvl).on_wall = false ∧
    (check_wall_contact p lvl).wall_direction = 0 := by
  unfold check_wall_contact
  dsimp only
  split
  · exact ⟨rfl, rfl⟩
  · rw [wallContactScan, hplat]
    simp [List.foldl_nil]

theorem apply_gravity_fields (p : Player) :
    (apply_gravity p).profile = p.profile ∧
    (apply_gravity p).on_ground = p.on_ground ∧
    (apply_gravity p).on_wall = p.on_wall ∧
    (apply_gravity p).wall_direction = p.wall_direction ∧
    (apply_gravity p).air_timer = p.air_timer ∧
    (apply_gravity p).has_double_jumped = p.has_double_jumped ∧
    (apply_gravity p).jump_buffer_timer = p.jump_buffer_timer ∧
    (apply_gravity p).velocity.x = p.velocity.x ∧
    (apply_gravity p).rect = p.rect ∧
    (apply_gravity p).dash_active = p.dash_active ∧
    (apply_gravity p).dash_timer = p.dash_timer ∧
    (apply_gravity p).last_input_direction = p.last_input_direction ∧
    (apply_gravity p).original_pos = p.original_pos := by
  unfold apply_gravity
  dsimp only
  split <;>
    exact ⟨rfl, rfl, rfl, rfl, rfl, rfl, rfl, rfl, rfl, rfl, rfl, rfl, rfl⟩

/-- The gravity constant `apply_gravity` adds on a non-wall-slide tick:
`falling_gravity` when falling, else `gravity` (`player.py` lines 214-221). -/
def gravSel (p : Player) : ℚ :=
  if p.velocity.y > 0 then p.profile.falling_gravity else p.profile.gravity

/-- The unclamped, non-wall-slide gravity equation. -/
theorem apply_gravity_eq (p : Player)
    (hw : p.on_wall = false)
    (hclamp : p.velocity.y + gravSel p ≤ p.profile.max_fall_speed) :
    (apply_gravity p).velocity.y = p.velocity.y + gravSel p := by
  unfold apply_gravity
  rw [if_neg (by simp [hw])]
  dsimp only
  rw [show (p.velocity.y +
      if p.velocity.y > 0 then p.profile.falling_gravity
      else p.profile.gravity) = p.velocity.y + gravSel p from rfl]
  rw [if_neg (not_lt.mpr hclamp)]

theorem collideVStep_fields (p : Player) (s : Rect) :
    (collideVStep p s).profile = p.profile ∧
    (collideVStep p s).on_wall = p.on_wall ∧
    (collideVStep p s).wall_direction = p.wall_direction ∧
    (collideVStep p s).jump_buffer_timer = p.jump_buffer_timer ∧
    (collideVStep p s).velocity.x = p.velocity.x ∧
    (collideVStep p s).dash_active = p.dash_active ∧
    (collideVStep p s).dash_timer = p.dash_timer ∧
    (collideVStep p s).last_input_direction = p.last_input_direction ∧
    (collideVStep p s).original_pos = p.original_pos := by
  unfold collideVStep
  dsimp only
  split
  · split <;> split <;>
      exact ⟨rfl, rfl, rfl, rfl, rfl, rfl, rfl, rfl, rfl⟩
  · exact ⟨rfl, rfl, rfl, rfl, rfl, rfl, rfl, rfl, rfl⟩

theorem collideVertical_fields (p : Player) (lvl : Level) :
    (collideVertical p lvl).profile = p.profile ∧
    (collideVertical p lvl).on_wall = p.on_wall ∧
    (collideVertical p lvl).wall_direction = p.wall_direction ∧
    (collideVertical p lvl).jump_buffer_timer = p.jump_buffer_timer ∧
    (collideVertical p lvl).velocity.x = p.velocity.x ∧
    (collideVertical p lvl).dash_active = p.dash_active ∧
    (collideVertical p lvl).dash_timer = p.dash_timer ∧
    (collideVertical p lvl).last_input_direction
      = p.last_input_direction ∧
    (collideVertical p lvl).original_pos = p.original_pos := by
  unfold collideVertical
  generalize lvl.platforms = l
  induction l generalizing p with
  | nil => exact ⟨rfl, rfl, rfl, rfl, rfl, rfl, rfl, rfl, rfl⟩
  | cons s t ih =>
    rw [List.foldl_cons]
    obtain ⟨a1, a2, a3, a4, a5, a6, a7, a8, a9⟩ := collideVStep_fields p s
    obtain ⟨b1, b2, b3, b4, b5, b6, b7, b8, b9⟩ := ih (collideVStep p s)
    exact ⟨b1.trans a1, b2.trans a2, b3.trans a3, b4.trans a4, b5.trans a5,
      b6.trans a6, b7.trans a7, b8.trans a8, b9.trans a9⟩

/-- A vertical collision step never clears `on_ground`. -/
theorem collideVStep_ground_mono (p : Player) (s : Rect)
    (h : p.on_ground = true) : (collideVStep p s).on_ground = true := by
  unfold collideVStep
  dsimp only
  split
  · split <;> split <;> simp_all [landStep, ceilStep]
  · exact h

theorem foldl_collideVStep_ground_mono (l : List Rect) (p : Player)
    (h : p.on_ground = true) : (l.foldl collideVStep p).on_ground = true := by
  induction l generalizing p with
  | nil => exact h
  | cons s t ih =>
    rw [List.foldl_cons]
    exact ih _ (collideVStep_ground_mono p s h)

/-- If a vertical collision step does not end grounded, the landing branch
did not fire, so `air_timer` and `has_double_jumped` are untouched. -/
theorem collideVStep_airborne (p : Player) (s : Rect)
    (h : (collideVStep p s).on_ground = false) :
    (collideVStep p s).air_timer = p.air_timer ∧
    (collideVStep p s).has_double_jumped = p.has_double_jumped := by
  unfold collideVStep at h ⊢
  dsimp only at h ⊢
  split at h
  next hc =>
    rw [if_pos hc]
    split at h
    next hv =>
      exfalso
      split at h <;> simp_all [landStep, ceilStep]
    next hv =>
      rw [if_neg hv]
      split at h <;> split <;> simp_all [ceilStep]
  next hc =>
    rw [if_neg hc]
    exact ⟨rfl, rfl⟩

theorem foldl_collideVStep_airborne (l : List Rect) (p : Player)
    (h : (l.foldl collideVStep p).on_ground = false) :
    (l.foldl collideVStep p).air_timer = p.air_timer ∧
    (l.foldl collideVStep p).has_double_jumped = p.has_double_jumped := by
  induction l generalizing p with
  | nil => exact ⟨rfl, rfl⟩
  | cons s t ih =>
    rw [List.foldl_cons] at h ⊢
    have hstep : (collideVStep p s).on_ground = false := by
      cases hsg : (collideVStep p s).on_ground
      · rfl
      · rw [foldl_collideVStep_ground_mono t _ hsg] at h
        cases h
    obtain ⟨c1, c2⟩ := collideVStep_airborne p s hstep
    obtain ⟨d1, d2⟩ := ih (collideVStep p s) h
    exact ⟨d1.trans c1, d2.trans c2⟩

theorem collideVertical_airborne (p : Player) (lvl : Level)
    (h : (collideVertical p lvl).on_ground = false) :
    (collideVertical p lvl).air_timer = p.air_timer ∧
    (collideVertical p lvl).has_double_jumped = p.has_double_jumped := by
  unfold collideVertical at h ⊢
  exact foldl_collideVStep_airborne _ _ h

theorem airTimerStage_fields (p : Player) :
    (airTimerStage p).profile = p.profile ∧
    (airTimerStage p).on_ground = p.on_ground ∧
    (airTimerStage p).on_wall = p.on_wall ∧
    (airTimerStage p).wall_direction = p.wall_direction ∧
    (airTimerStage p).jump_buffer_timer = p.jump_buffer_timer ∧
    (airTimerStage p).velocity = p.velocity ∧
    (airTimerStage p).rect = p.rect ∧
    (airTimerStage p).has_double_jumped = p.has_double_jumped ∧
    (airTimerStage p).dash_active = p.dash_active ∧
    (airTimerStage p).dash_timer = p.dash_timer ∧
    (airTimerStage p).last_input_direction = p.last_input_direction ∧
    (airTimerStage p).original_pos = p.original_pos := by
  unfold airTimerStage
  split <;>
    exact ⟨rfl, rfl, rfl, rfl, rfl, rfl, rfl, rfl, rfl, rfl, rfl, rfl⟩

theorem except_pure {ε α : Type _} (a : α) :
    (pure a : Except ε α) = Except.ok a := rfl

theorem except_bind_ok {ε α β : Type _} (a : α) (f : α → Except ε β) :
    (Except.ok a >>= f : Except ε β) = f a := rfl

theorem except_bind_error {ε α β : Type _} (e : ε) (f : α → Except ε β) :
    (Except.error e >>= f : Except ε β) = Except.error e := rfl

/-- `jump` with no live buffered request does nothing. -/
theorem jump_noop (p : Player) (hb : p.jump_buffer_timer ≤ 0) :
    jump p = Except.ok p := by
  unfold jump
  rw [if_neg (by rintro ⟨-, -, h⟩; omega),
      if_neg (by rintro ⟨h, -⟩; omega)]

/-- Fields a successful `jump` never changes, plus: `jump` can only clear
`on_wall`, never set it. -/
theorem jump_ok_fields (p q : Player) (h : jump p = Except.ok q) :
    q.profile = p.profile ∧
    q.rect = p.rect ∧
    q.original_pos = p.original_pos ∧
    q.wall_direction = p.wall_direction ∧
    (q.on_wall = true → p.on_wall = true) ∧
    q.dash_active = p.dash_active ∧
    q.dash_timer = p.dash_timer := by
  unfold jump at h
  split at h
  · -- wall-jump branch (any style, including invalid)
    rw [Except.ok.injEq] at h
    subst h
    refine ⟨?_, ?_, ?_, ?_, ?_, ?_, ?_⟩ <;>
      · repeat' split
        all_goals first | rfl | exact fun hh => by cases hh
  · dsimp only at h
    split at h
    · -- ground/coyote/double branch
      by_cases hbonus : p.profile.jump_force_run_bonus > 0
      · rw [if_pos hbonus] at h
        cases hdiv : pyDiv |p.velocity.x| p.profile.run_speed with
        | error e =>
          rw [hdiv] at h
          simp only [except_bind_error] at h
          cases h
        | ok r =>
          rw [hdiv] at h
          simp only [except_bind_ok, except_pure] at h
          rw [Except.ok.injEq] at h
          subst h
          exact ⟨rfl, rfl, rfl, rfl, fun hh => hh, rfl, rfl⟩
      · rw [if_neg hbonus] at h
        simp only [except_bind_ok, except_pure] at h
        rw [Except.ok.injEq] at h
        subst h
        exact ⟨rfl, rfl, rfl, rfl, fun hh => hh, rfl, rfl⟩
    · rw [Except.ok.injEq] at h
      subst h
      exact ⟨rfl, rfl, rfl, rfl, fun hh => hh, rfl, rfl⟩

theorem postJump_fields (p : Player) (lvl : Level) :
    (postJump p lvl).profile = p.profile ∧
    (postJump p lvl).on_wall = p.on_wall ∧
    (postJump p lvl).wall_direction = p.wall_direction ∧
    (postJump p lvl).air_timer = p.air_timer ∧
    (postJump p lvl).jump_buffer_timer = p.jump_buffer_timer ∧
    (postJump p lvl).run_buffer_timer = p.run_buffer_timer ∧
    (postJump p lvl).wall_stick_timer = p.wall_stick_timer ∧
    (postJump p lvl).dash_timer = p.dash_timer ∧
    (postJump p lvl).last_input_direction = p.last_input_direction ∧
    (postJump p lvl).original_pos = p.original_pos := by
  unfold postJump reset
  dsimp only
  split <;> split <;>
    exact ⟨rfl, rfl, rfl, rfl, rfl, rfl, rfl, rfl, rfl, rfl⟩

/-- With no hazards and the actor above the world bottom, the terminal
checks do nothing. -/
theorem postJump_id (p : Player) (lvl : Level)
    (hhaz : lvl.hazards = []) (htop : p.rect.top ≤ SCREEN_HEIGHT) :
    postJump p lvl = p := by
  unfold postJump
  rw [hhaz]
  simp only [List.any_nil, Bool.false_eq_true, if_false]
  rw [if_neg (not_lt.mpr htop)]

/-- `dashInputStage` is the identity when a dash is already active. -/
theorem dashInputStage_already (p : Player) (inp : InputState)
    (hd : p.dash_active = true) : dashInputStage p inp = p := by
  unfold dashInputStage
  rw [if_neg (by simp [hd])]

/-! ## Wall-contact invariant without wall slide (claim C10) -/

/-- The guard of the wall-jump branch of `Player.jump` (line 288). -/
def wallJumpGate (p : Player) : Bool :=
  p.profile.has_wall_jump && p.on_wall && decide (p.jump_buffer_timer > 0)

theorem preJump_profile (p : Player) (lvl : Level) (inp : InputState) :
    (preJump p lvl inp).profile = p.profile := by
  unfold preJump
  exact ((airTimerStage_fields _).1).trans
    (((collideVertical_fields _ _).1).trans
      (((apply_gravity_fields _).1).trans
        (((check_wall_contact_fields _ _).1).trans
          (((collideHorizontal_fields _ _).1).trans
            ((get_input_fields p inp).1)))))

/-- Without wall slide, the `preJump` pipeline leaves no wall contact:
`check_wall_contact` clears it and nothing afterwards sets it. -/
theorem preJump_no_wall (p : Player) (lvl : Level) (inp : InputState)
    (h : p.profile.has_wall_slide = false) :
    (preJump p lvl inp).on_wall = false ∧
    (preJump p lvl inp).wall_direction = 0 := by
  unfold preJump
  have hprofA :
      (collideHorizontal (moveX (get_input p inp)) lvl).profile
        = p.profile :=
    ((collideHorizontal_fields _ _).1).trans ((get_input_fields p inp).1)
  obtain ⟨hw, hwd⟩ := check_wall_contact_no_slide
    (collideHorizontal (moveX (get_input p inp)) lvl) lvl
    (by rw [hprofA]; exact h)
  have hgB := apply_gravity_fields
    (check_wall_contact (collideHorizontal (moveX (get_input p inp)) lvl)
      lvl)
  have hcv := collideVertical_fields
    (moveY (setAirborne (apply_gravity
      (check_wall_contact
        (collideHorizontal (moveX (get_input p inp)) lvl) lvl)))) lvl
  have hat := airTimerStage_fields
    (collideVertical
      (moveY (setAirborne (apply_gravity
        (check_wall_contact
          (collideHorizontal (moveX (get_input p inp)) lvl) lvl)))) lvl)
  constructor
  · exact (hat.2.2.1).trans ((hcv.2.1).trans ((hgB.2.2.1).trans hw))
  · exact (hat.2.2.2.1).trans ((hcv.2.2.1).trans ((hgB.2.2.2.1).trans hwd))

/-- C10: for every profile with `has_wall_slide = false`, on every tick the
wall-jump gate in `jump` is closed (so `has_wall_jump = true` without wall
slide can never execute a wall jump), and after the tick `on_wall` is
`false` and `wall_direction` is `0`, whatever the level geometry and the
prior state. -/
theorem no_wall_slide_never_wall_jump (p : Player) (lvl : Level)
    (inp : InputState) (h : p.profile.has_wall_slide = false) :
    wallJumpGate (preJump p lvl inp) = false ∧
    ∀ q, update p lvl inp = Except.ok q →
      q.on_wall = false ∧ q.wall_direction = 0 := by
  obtain ⟨hw, hwd⟩ := preJump_no_wall p lvl inp h
  constructor
  · simp [wallJumpGate, hw]
  · intro q hq
    unfold update at hq
    dsimp only at hq
    cases hj : jump (preJump p lvl inp) with
    | error e =>
      rw [hj] at hq
      simp only [except_bind_error] at hq
      cases hq
    | ok q0 =>
      rw [hj] at hq
      simp only [except_bind_ok, except_pure] at hq
      rw [Except.ok.injEq] at hq
      subst hq
      obtain ⟨j1, j2, j3, j4, j5, j6, j7⟩ := jump_ok_fields _ _ hj
      have hq0w : q0.on_wall = false := by
        cases hoW : q0.on_wall
        · rfl
        · rw [j5 hoW] at hw; cases hw
      have hq0d : q0.wall_direction = 0 := j4.trans hwd
      have hpj := postJump_fields q0 lvl
      exact ⟨hpj.2.1.trans hq0w, hpj.2.2.1.trans hq0d⟩

/-- A level with one wall-like platform to the player's right. -/
def wallLevel : Level :=
  { platforms := [{ x := 230, y := 100, w := 40, h := 700 }], hazards := [] }

/-- Witness for `no_wall_slide_never_wall_jump`: a wall-jump-capable but
wall-slide-less profile hugging a wall with a live buffered jump still
cannot wall jump, and ends the tick with no wall contact. -/
theorem no_wall_slide_never_wall_jump_witness :
    wallJumpGate (preJump
      { mkPlayer (200, 600) { SUPER_MEAT_BOY with has_wall_slide := false }
        with on_wall := true, wall_direction := 1, jump_buffer_timer := 3 }
      wallLevel noInput) = false ∧
    ∀ q, update
      { mkPlayer (200, 600) { SUPER_MEAT_BOY with has_wall_slide := false }
        with on_wall := true, wall_direction := 1, jump_buffer_timer := 3 }
      wallLevel noInput = Except.ok q →
      q.on_wall = false ∧ q.wall_direction = 0 :=
  no_wall_slide_never_wall_jump _ wallLevel noInput rfl

/-! ## Gravity during an active dash (claim C1) -/

/-- A dashing Madeline (a profile whose `falling_gravity` differs from
`gravity`) at rest vertically. -/
def dashGravityPlayer : Player :=
  { mkPlayer (200, 600) MADELINE with
    dash_active := true, dash_timer := 5, dash_direction := 1 }

/-- C1 counterexample: on a tick with an active dash, gravity IS applied:
a dashing Madeline with `velocity.y = 0` ends the tick with
`velocity.y = 0.65` (= rising gravity), not unchanged. -/
theorem dash_gravity_cex :
    dashGravityPlayer.dash_active = true ∧
    dashGravityPlayer.velocity.y = 0 ∧
    dashGravityPlayer.profile.gravity = 0.65 ∧
    dashGravityPlayer.profile.falling_gravity = 0.9 ∧
    (update dashGravityPlayer emptyLevel noInput).map
      (fun q => q.velocity.y) = .ok 0.65 ∧
    (0.65 : ℚ) ≠ 0 := by
  refine ⟨rfl, rfl, rfl, rfl, ?_, by norm_num⟩
  with_unfolding_all decide

/-- C1 (amended): during an active dash the dash overrides only the
horizontal motion; gravity is still applied exactly as on any other tick.
On a free-fall tick (no geometry, no jump firing, no clamp, no respawn)
with an active dash, `velocity.y` increases by precisely the selected
gravity constant (`falling_gravity` when falling, else `gravity`). -/
theorem dash_tick_gravity_applied (p : Player) (lvl : Level)
    (inp : InputState)
    (hd : p.dash_active = true)
    (hplat : lvl.platforms = [])
    (hhaz : lvl.hazards = [])
    (hbuf : p.jump_buffer_timer ≤ 0)
    (hclamp : p.velocity.y + gravSel p ≤ p.profile.max_fall_speed)
    (htop : p.rect.y + (p.velocity.y + gravSel p) ≤ SCREEN_HEIGHT) :
    update p lvl inp = Except.ok (preJump p lvl inp) ∧
    (preJump p lvl inp).velocity.y = p.velocity.y + gravSel p := by
  have hgi : get_input p inp = dashOverrideStage p := by
    unfold get_input
    rw [dashInputStage_already p inp hd]
    simp [hd]
  have hch : ∀ r, collideHorizontal r lvl = r := fun r => by
    unfold collideHorizontal; rw [hplat]; rfl
  have hcv : ∀ r, collideVertical r lvl = r := fun r => by
    unfold collideVertical; rw [hplat]; rfl
  obtain ⟨d1, d2, d3, d4, d5, d6, d7, d8, d9, d10, d11⟩ :=
    dashOverrideStage_fields p
  have hpre : preJump p lvl inp =
      airTimerStage (moveY (setAirborne (apply_gravity
        (check_wall_contact (moveX (dashOverrideStage p)) lvl)))) := by
    unfold preJump
    rw [hch, hcv, hgi]
  obtain ⟨w1, w2, w3, w4, w5, w6, w7, w8, w9, w10, w11⟩ :=
    check_wall_contact_fields (moveX (dashOverrideStage p)) lvl
  obtain ⟨e1, e2⟩ :=
    check_wall_contact_empty (moveX (dashOverrideStage p)) lvl hplat
  have hWy : (check_wall_contact (moveX (dashOverrideStage p))
      lvl).velocity.y = p.velocity.y :=
    (congrArg Vec2.y w6).trans d4
  have hWprof : (check_wall_contact (moveX (dashOverrideStage p))
      lvl).profile = p.profile := w1.trans d1
  have hWbuf : (check_wall_contact (moveX (dashOverrideStage p))
      lvl).jump_buffer_timer = p.jump_buffer_timer := w5.trans d2
  have hWrecty : (check_wall_contact (moveX (dashOverrideStage p))
      lvl).rect.y = p.rect.y :=
    (congrArg Rect.y w7).trans
      ((show (moveX (dashOverrideStage p)).rect.y
          = (dashOverrideStage p).rect.y from rfl).trans
        (congrArg Rect.y d10))
  have hgsel : gravSel (check_wall_contact (moveX (dashOverrideStage p))
      lvl) = gravSel p := by
    unfold gravSel
    simp only [hWy, hWprof]
  have hgy : (apply_gravity (check_wall_contact
      (moveX (dashOverrideStage p)) lvl)).velocity.y
      = p.velocity.y + gravSel p := by
    rw [apply_gravity_eq _ e1 (by rw [hWy, hgsel, hWprof]; exact hclamp),
        hWy, hgsel]
  obtain ⟨a1, a2, a3, a4, a5, a6, a7, a8, a9, a10, a11, a12, a13⟩ :=
    apply_gravity_fields (check_wall_contact
      (moveX (dashOverrideStage p)) lvl)
  have hpre_vy : (preJump p lvl inp).velocity.y
      = p.velocity.y + gravSel p := by
    rw [hpre]
    exact (congrArg Vec2.y (airTimerStage_fields _).2.2.2.2.2.1).trans hgy
  have hpre_buf : (preJump p lvl inp).jump_buffer_timer ≤ 0 := by
    rw [hpre]
    have hb : (airTimerStage (moveY (setAirborne (apply_gravity
        (check_wall_contact (moveX (dashOverrideStage p))
          lvl))))).jump_buffer_timer = p.jump_buffer_timer :=
      ((airTimerStage_fields _).2.2.2.2.1).trans (a7.trans hWbuf)
    rw [hb]; exact hbuf
  have hpre_top : (preJump p lvl inp).rect.top ≤ SCREEN_HEIGHT := by
    rw [hpre]
    have hr : (airTimerStage (moveY (setAirborne (apply_gravity
        (check_wall_contact (moveX (dashOverrideStage p))
          lvl))))).rect.y = p.rect.y + (p.velocity.y + gravSel p) := by
      have h1 := congrArg Rect.y (airTimerStage_fields (moveY (setAirborne
        (apply_gravity (check_wall_contact
          (moveX (dashOverrideStage p)) lvl))))).2.2.2.2.2.2.1
      refine h1.trans ?_
      show (apply_gravity (check_wall_contact
          (moveX (dashOverrideStage p)) lvl)).rect.y +
        (apply_gravity (check_wall_contact
          (moveX (dashOverrideStage p)) lvl)).velocity.y = _
      rw [congrArg Rect.y a9, hWrecty, hgy]
    show (airTimerStage (moveY (setAirborne (apply_gravity
        (check_wall_contact (moveX (dashOverrideStage p))
          lvl))))).rect.y ≤ SCREEN_HEIGHT
    rw [hr]; exact htop
  refine ⟨?_, hpre_vy⟩
  unfold update
  dsimp only
  rw [jump_noop _ hpre_buf, except_bind_ok, except_pure,
      postJump_id _ _ hhaz hpre_top]

/-- Witness for `dash_tick_gravity_applied` at the concrete dashing
Madeline state. -/
theorem dash_tick_gravity_applied_witness :
    update dashGravityPlayer emptyLevel noInput =
      Except.ok (preJump dashGravityPlayer emptyLevel noInput) ∧
    (preJump dashGravityPlayer emptyLevel noInput).velocity.y =
      dashGravityPlayer.velocity.y + gravSel dashGravityPlayer :=
  dash_tick_gravity_applied dashGravityPlayer emptyLevel noInput
    rfl rfl rfl (by decide)
    (by with_unfolding_all decide)
    (by with_unfolding_all decide)

/-! ## Double jump: at most two airborne impulses (claim C8) -/

/-- The ground/coyote/double-jump branch of `Player.jump` fires: the
wall-jump gate is closed, the buffered request is live, and one of the two
eligibilities holds (lines 344-348). -/
def groundJumpFires (p : Player) : Bool :=
  decide (¬(p.profile.has_wall_jump ∧ p.on_wall ∧ p.jump_buffer_timer > 0) ∧
    p.jump_buffer_timer > 0 ∧ (canJump p ∨ canDoubleJump p))

/-- How many ground/coyote/double impulses are still available from a
state: one while the coyote window is open, one while an unspent double
jump exists. -/
def jumpPotential (p : Player) : Nat :=
  (if p.air_timer < p.profile.coyote_time then 1 else 0) +
  (if p.profile.has_double_jump ∧ ¬p.has_double_jumped then 1 else 0)

theorem jumpPotential_le_two (p : Player) : jumpPotential p ≤ 2 := by
  unfold jumpPotential
  split <;> split <;> omega

/-- On a tick with no landing, `preJump` only increments `air_timer` and
leaves the double-jump flag alone. -/
theorem preJump_airborne (p : Player) (lvl : Level) (inp : InputState)
    (h : (preJump p lvl inp).on_ground = false) :
    (preJump p lvl inp).air_timer = p.air_timer + 1 ∧
    (preJump p lvl inp).has_double_jumped = p.has_double_jumped := by
  unfold preJump at h ⊢
  set D := moveY (setAirborne (apply_gravity (check_wall_contact
    (collideHorizontal (moveX (get_input p inp)) lvl) lvl))) with hD
  have hE : (collideVertical D lvl).on_ground = false :=
    ((airTimerStage_fields (collideVertical D lvl)).2.1).symm.trans h
  obtain ⟨hEa, hEh⟩ := collideVertical_airborne D lvl hE
  have hstep : (airTimerStage (collideVertical D lvl)).air_timer
      = (collideVertical D lvl).air_timer + 1 := by
    unfold airTimerStage
    rw [if_pos (by simp [hE])]
  have hDa : D.air_timer = p.air_timer := by
    rw [hD]
    show (apply_gravity (check_wall_contact
      (collideHorizontal (moveX (get_input p inp)) lvl) lvl)).air_timer = _
    exact ((apply_gravity_fields _).2.2.2.2.1).trans
      (((check_wall_contact_fields _ _).2.2.1).trans
        (((collideHorizontal_fields _ _).2.2.2.2.1).trans
          ((get_input_fields p inp).2.2.2.2.2.1)))
  have hDh : D.has_double_jumped = p.has_double_jumped := by
    rw [hD]
    show (apply_gravity (check_wall_contact
      (collideHorizontal (moveX (get_input p inp)) lvl)
        lvl)).has_double_jumped = _
    exact ((apply_gravity_fields _).2.2.2.2.2.1).trans
      (((check_wall_contact_fields _ _).2.2.2.1).trans
        (((collideHorizontal_fields _ _).2.2.2.2.2.1).trans
          ((get_input_fields p inp).2.2.2.2.2.2.1)))
  constructor
  · rw [hstep, hEa, hDa]
  · exact ((airTimerStage_fields _).2.2.2.2.2.2.2.1).trans (hEh.trans hDh)

/-- An airborne `preJump` never increases the jump potential. -/
theorem preJump_phi (p : Player) (lvl : Level) (inp : InputState)
    (h : (preJump p lvl inp).on_ground = false) :
    jumpPotential (preJump p lvl inp) ≤ jumpPotential p := by
  obtain ⟨ha, hh⟩ := preJump_airborne p lvl inp h
  have hp := preJump_profile p lvl inp
  unfold jumpPotential
  rw [ha, hh, hp]
  have h1 : (if p.air_timer + 1 < p.profile.coyote_time then 1 else 0)
      ≤ (if p.air_timer < p.profile.coyote_time then (1 : Nat) else 0) := by
    split <;> split <;> omega
  exact Nat.add_le_add h1 le_rfl

/-- A wall jump (any style) leaves `air_timer`, the double-jump flag and
the profile untouched. -/
theorem jump_wall_fields (p q : Player)
    (hwall : p.profile.has_wall_jump ∧ p.on_wall ∧ p.jump_buffer_timer > 0)
    (h : jump p = Except.ok q) :
    q.air_timer = p.air_timer ∧
    q.has_double_jumped = p.has_double_jumped ∧
    q.profile = p.profile := by
  unfold jump at h
  rw [if_pos hwall] at h
  dsimp only at h
  rw [Except.ok.injEq] at h
  subst h
  refine ⟨?_, ?_, ?_⟩ <;>
    · repeat' split
      all_goals rfl

/-- A firing ground/coyote/double jump pins `air_timer` to the coyote
limit and sets the double-jump flag exactly in the double-jump case. -/
theorem jump_fire_fields (p q : Player)
    (hwall :
      ¬(p.profile.has_wall_jump ∧ p.on_wall ∧ p.jump_buffer_timer > 0))
    (hfire : p.jump_buffer_timer > 0 ∧ (canJump p ∨ canDoubleJump p))
    (h : jump p = Except.ok q) :
    q.air_timer = p.profile.coyote_time ∧
    q.has_double_jumped
      = (if canDoubleJump p then true else p.has_double_jumped) ∧
    q.profile = p.profile := by
  unfold jump at h
  rw [if_neg hwall, if_pos hfire] at h
  dsimp only at h
  by_cases hbonus : p.profile.jump_force_run_bonus > 0
  · rw [if_pos hbonus] at h
    cases hdiv : pyDiv |p.velocity.x| p.profile.run_speed with
    | error e =>
      rw [hdiv] at h
      simp only [except_bind_error] at h
      cases h
    | ok r =>
      rw [hdiv] at h
      simp only [except_bind_ok, except_pure] at h
      rw [Except.ok.injEq] at h
      subst h
      exact ⟨rfl, rfl, rfl⟩
  · rw [if_neg hbonus] at h
    simp only [except_bind_ok, except_pure] at h
    rw [Except.ok.injEq] at h
    subst h
    exact ⟨rfl, rfl, rfl⟩

/-- `jump` with the wall gate closed and no eligible request does
nothing. -/
theorem jump_nofire (p : Player)
    (hwall :
      ¬(p.profile.has_wall_jump ∧ p.on_wall ∧ p.jump_buffer_timer > 0))
    (hfire : ¬(p.jump_buffer_timer > 0 ∧ (canJump p ∨ canDoubleJump p))) :
    jump p = Except.ok p := by
  unfold jump
  rw [if_neg hwall, if_neg hfire]

/-- On an airborne tick, a successful `jump` pays one unit of potential
for a ground/coyote/double impulse and never increases the potential. -/
theorem jump_phi (p q : Player) (hg : p.on_ground = false)
    (h : jump p = Except.ok q) :
    jumpPotential q + (if groundJumpFires p = true then 1 else 0)
      ≤ jumpPotential p := by
  by_cases hwall : p.profile.has_wall_jump ∧ p.on_wall ∧
      p.jump_buffer_timer > 0
  · have hf : groundJumpFires p = false := by
      simp only [groundJumpFires, decide_eq_false_iff_not]
      exact fun hc => hc.1 hwall
    obtain ⟨ha, hh, hp⟩ := jump_wall_fields p q hwall h
    have hpot : jumpPotential q = jumpPotential p := by
      unfold jumpPotential
      rw [ha, hh, hp]
    rw [hf, hpot]
    simp
  · by_cases hfire : p.jump_buffer_timer > 0 ∧
        (canJump p ∨ canDoubleJump p)
    · obtain ⟨ha, hh, hp⟩ := jump_fire_fields p q hwall hfire h
      have hf : groundJumpFires p = true := by
        simp only [groundJumpFires, decide_eq_true_eq]
        exact ⟨hwall, hfire⟩
      rw [hf, if_pos rfl]
      unfold jumpPotential
      rw [ha, hh, hp, if_neg (lt_irrefl p.profile.coyote_time)]
      rcases hfire.2 with hcj | hcdj
      · have hair : p.air_timer < p.profile.coyote_time := by
          rcases hcj with hg2 | hlt
          · rw [hg] at hg2; cases hg2
          · exact hlt
        have hncdj : ¬canDoubleJump p := fun hc => hc.2.2.2 hcj
        rw [if_neg hncdj, if_pos hair]
        split <;> omega
      · have hncj : ¬canJump p := hcdj.2.2.2
        have h1 : ¬(p.air_timer < p.profile.coyote_time) :=
          fun hlt => hncj (Or.inr hlt)
        rw [if_pos hcdj,
            if_neg (show ¬(p.profile.has_double_jump = true ∧
              ¬(true = true)) from fun hc => hc.2 rfl),
            if_neg h1, if_pos ⟨hcdj.1, hcdj.2.2.1⟩]
    · have hq : q = p := by
        have h2 := (jump_nofire p hwall hfire).symm.trans h
        rw [Except.ok.injEq] at h2
        exact h2.symm
      have hf : groundJumpFires p = false := by
        simp only [groundJumpFires, decide_eq_false_iff_not]
        exact fun hc => hfire hc.2
      rw [hf, hq]
      simp

theorem exceptBind_ok {ε α β : Type _} (a : α) (f : α → Except ε β) :
    Except.bind (Except.ok a) f = f a := rfl

theorem exceptBind_error {ε α β : Type _} (e : ε)
    (f : α → Except ε β) :
    Except.bind (Except.error e) f = Except.error e := rfl

/-- A trace of ticks: iterate `preJump → jump → postJump` (one `update`
per input, see `update_eq_tick`), collecting for every tick the pre-jump
state and the post-jump (pre-terminal-check) state. -/
def run (lvl : Level) : Player → List InputState →
    Except String (Player × List (Player × Player))
  | p, [] => Except.ok (p, [])
  | p, i :: is =>
    Except.bind (jump (preJump p lvl i)) fun q =>
      Except.bind (run lvl (postJump q lvl) is) fun pr =>
        Except.ok (pr.1, (preJump p lvl i, q) :: pr.2)

/-- One tick of `run` is exactly `Player.update`. -/
theorem update_eq_tick (p : Player) (lvl : Level) (i : InputState) :
    update p lvl i
      = Except.bind (jump (preJump p lvl i))
          (fun q => Except.ok (postJump q lvl)) := rfl

/-- Over any run of landing-free, reset-free ticks, the number of
ground/coyote/double-jump impulses is bounded by the starting jump
potential. -/
theorem run_count_le (lvl : Level) (hhaz : lvl.hazards = [])
    (inps : List InputState) :
    ∀ (p fin : Player) (pairs : List (Player × Player)),
    run lvl p inps = Except.ok (fin, pairs) →
    (∀ pr ∈ pairs, pr.1.on_ground = false ∧
      pr.2.rect.top ≤ SCREEN_HEIGHT) →
    pairs.countP (fun pr => groundJumpFires pr.1) ≤ jumpPotential p := by
  induction inps with
  | nil =>
    intro p fin pairs hrun hcond
    unfold run at hrun
    rw [Except.ok.injEq, Prod.mk.injEq] at hrun
    rw [← hrun.2]
    simp [List.countP_nil]
  | cons i is ih =>
    intro p fin pairs hrun hcond
    unfold run at hrun
    cases hj : jump (preJump p lvl i) with
    | error e =>
      rw [hj, exceptBind_error] at hrun
      cases hrun
    | ok q =>
      rw [hj, exceptBind_ok] at hrun
      cases hr2 : run lvl (postJump q lvl) is with
      | error e =>
        rw [hr2, exceptBind_error] at hrun
        cases hrun
      | ok pr =>
        rw [hr2, exceptBind_ok] at hrun
        rw [Except.ok.injEq, Prod.mk.injEq] at hrun
        obtain ⟨hfin, hpairs⟩ := hrun
        subst hpairs
        have hc1 := hcond (preJump p lvl i, q) (List.mem_cons_self _ _)
        have hcrest : ∀ x ∈ pr.2, x.1.on_ground = false ∧
            x.2.rect.top ≤ SCREEN_HEIGHT :=
          fun x hx => hcond x (List.mem_cons_of_mem _ hx)
        rw [postJump_id q lvl hhaz hc1.2] at hr2
        have hih := ih q pr.1 pr.2 hr2 hcrest
        rw [List.countP_cons]
        have hjp := jump_phi (preJump p lvl i) q hc1.1 hj
        have hpp := preJump_phi p lvl i hc1.1
        have hsum := Nat.add_le_add_right hih
          (if groundJumpFires (preJump p lvl i) = true then 1 else 0)
        exact le_trans (le_trans hsum hjp) hpp

/-- C8: for every profile with `has_double_jump`, at most one extra jump
is available per ground contact: over ANY sequence of ticks in which the
actor never lands (every pre-jump state is airborne) and no respawn
triggers (no hazards, never below the world bottom) — in particular over
three consecutive airborne jump-press edges — the ground/coyote/double
branch of `jump` imparts at most two velocity impulses. -/
theorem double_jump_at_most_two (lvl : Level) (p fin : Player)
    (inps : List InputState) (pairs : List (Player × Player))
    (hhaz : lvl.hazards = [])
    (hrun : run lvl p inps = Except.ok (fin, pairs))
    (hair : ∀ pr ∈ pairs, pr.1.on_ground = false ∧
      pr.2.rect.top ≤ SCREEN_HEIGHT) :
    pairs.countP (fun pr => groundJumpFires pr.1) ≤ 2 :=
  le_trans (run_count_le lvl hhaz inps p fin pairs hrun hair)
    (jumpPotential_le_two p)

/-- Madeline airborne beyond her coyote window, about to press jump three
times. -/
def airborneMadeline : Player :=
  { mkPlayer (200, 100) MADELINE with air_timer := 100 }

/-- Press, release, press, release, press: three jump-press edges. -/
def threePressInputs : List InputState :=
  [{ noInput with jump := true }, noInput,
   { noInput with jump := true }, noInput,
   { noInput with jump := true }]

/-- The concrete five-tick trace of `airborneMadeline`. -/
def threePressTrace : Player × List (Player × Player) :=
  match run emptyLevel airborneMadeline threePressInputs with
  | .ok pr => pr
  | .error _ => (airborneMadeline, [])

set_option maxRecDepth 100000 in
set_option maxHeartbeats 1000000 in
/-- Witness for `double_jump_at_most_two` on the concrete three-press
airborne trace. -/
theorem double_jump_at_most_two_witness :
    run emptyLevel airborneMadeline threePressInputs
      = Except.ok threePressTrace ∧
    threePressTrace.2.countP (fun pr => groundJumpFires pr.1) ≤ 2 :=
  ⟨by with_unfolding_all decide,
   double_jump_at_most_two emptyLevel airborneMadeline threePressTrace.1
     threePressInputs threePressTrace.2 rfl
     (by with_unfolding_all decide)
     (by with_unfolding_all decide)⟩

end MovementDemo
